import Mathlib

/-!
# BMP180 driver (`src/bmp180.c`): calibration decode, raw acquisition, compensation

A shallow embedding of the driver.  The i2c bus, the C library and the clock are outside
the repository; every call into them is recorded in a trace, and their return values are
supplied by a host function of the trace so far and the call being made.

Machine integers are `Int`.  `int32_t`/`int` arithmetic wraps at 32 bits, `long` and
`unsigned long` arithmetic wraps at `lb` bits, where `lb` is the width of `long` on the
host (32 on the 32-bit ARM boards the driver targets, 64 on LP64 hosts).  Operations whose
behaviour C leaves without any value (division by zero, a shift count that is negative or
not smaller than the width) yield `none`.  `x >> k` on a signed integer is the arithmetic
shift and `/` truncates toward zero, as the compilers of the driver's targets do.  The
field `error` only ever holds the answer of a command write or, for a negative answer,
its negation; the bus primitive answers `0` or a negated errno, so the negation is
taken exactly.  For `bmp180_close` the blocks that hold a structure are a partial map
from addresses; reading a block that is not live is outside defined behaviour.
-/

namespace BMP180

/-! ## Machine arithmetic -/

/-- Two's complement reduction of `x` to a signed integer of `w` bits. -/
def wrapSigned (w : Nat) (x : Int) : Int :=
  (x + 2 ^ (w - 1)) % 2 ^ w - 2 ^ (w - 1)

/-- Reduction of `x` to an unsigned integer of `w` bits (conversion to `unsigned long`). -/
def wrapUnsigned (w : Nat) (x : Int) : Int :=
  x % 2 ^ w

/-- The C expression `x & m` for the mask `m = 2^hi - 2^lo` (bits `lo .. hi-1` set) on a
two's complement `x`: the bits `lo .. hi-1` of `x`, left in place.
`x & 0xFFFF` is `bitfield x 0 16`, `x & 0xFF00` is `bitfield x 8 16`,
`x & 0xFF` is `bitfield x 0 8`. -/
def bitfield (x : Int) (lo hi : Nat) : Int :=
  x % 2 ^ hi - x % 2 ^ lo

/-- The C expression `x >> k` on a signed integer, `k` a constant count within the width:
the arithmetic shift, that is the quotient by `2^k` rounded toward minus infinity. -/
def sar (x : Int) (k : Nat) : Int :=
  x / 2 ^ k

/-- The C expression `x << k` on a signed integer of `w` bits, `k` a run-time count. -/
def shl (w : Nat) (x k : Int) : Option Int :=
  if 0 ≤ k ∧ k < w then some (wrapSigned w (x * 2 ^ k.toNat)) else none

/-- The C expression `x >> k` (arithmetic shift) on a signed integer of `w` bits,
`k` a run-time count. -/
def shr (w : Nat) (x k : Int) : Option Int :=
  if 0 ≤ k ∧ k < w then some (sar x k.toNat) else none

/-- The C expression `a / b` on signed integers of `w` bits: the quotient truncated
toward zero; no value when `b` is zero. -/
def cdiv (w : Nat) (a b : Int) : Option Int :=
  if b = 0 then none else some (wrapSigned w (Int.tdiv a b))

/-- The C expression `a / b` on unsigned integers; no value when `b` is zero. -/
def udiv (a b : Int) : Option Int :=
  if b = 0 then none else some (a / b)

/-- The constant `LONG_MIN` of a host whose `long` has `lb` bits. -/
def LONG_MIN (lb : Nat) : Int := -(2 ^ (lb - 1))

/-! ## Constants of `bmp180.c` -/

def BMP180_REG_AC1_H : Int := 0xAA
def BMP180_REG_AC2_H : Int := 0xAC
def BMP180_REG_AC3_H : Int := 0xAE
def BMP180_REG_AC4_H : Int := 0xB0
def BMP180_REG_AC5_H : Int := 0xB2
def BMP180_REG_AC6_H : Int := 0xB4
def BMP180_REG_B1_H : Int := 0xB6
def BMP180_REG_B2_H : Int := 0xB8
def BMP180_REG_MB_H : Int := 0xBA
def BMP180_REG_MC_H : Int := 0xBC
def BMP180_REG_MD_H : Int := 0xBE
def BMP180_CTRL : Int := 0xF4
def BMP180_REG_TMP : Int := 0xF6
def BMP180_REG_PRE : Int := 0xF6
def BMP180_TMP_READ_CMD : Int := 0x2E
def BMP180_TMP_READ_WAIT_US : Int := 5000
def BMP180_PRE_OSS0 : Int := 0
def BMP180_PRE_OSS1 : Int := 1
def BMP180_PRE_OSS2 : Int := 2
def BMP180_PRE_OSS3 : Int := 3
def BMP180_PRE_OSS0_CMD : Int := 0x34
def BMP180_PRE_OSS1_CMD : Int := 0x74
def BMP180_PRE_OSS2_CMD : Int := 0xB4
def BMP180_PRE_OSS3_CMD : Int := 0xF4
def BMP180_PRE_OSS0_WAIT_US : Int := 5000
def BMP180_PRE_OSS1_WAIT_US : Int := 8000
def BMP180_PRE_OSS2_WAIT_US : Int := 14000
def BMP180_PRE_OSS3_WAIT_US : Int := 26000

/-! ## The host: bus, allocator, clock -/

/-- A call that leaves the driver. -/
inductive Op where
  | malloc_struct
  | malloc_string (len : Nat)
  | free (ptr : Int)
  | open_device (path : String)
  | close_file (file : Int)
  | ioctl_slave (file : Int) (address : Int)
  | i2c_smbus_write_byte_data (file : Int) (reg : Int) (value : Int)
  | i2c_smbus_read_word_data (file : Int) (reg : Int)
  | i2c_smbus_read_byte_data (file : Int) (reg : Int)
  | usleep (us : Int)
  deriving DecidableEq, Repr

/-- The host's answer to a call, given the calls made before it.  For the i2c primitives
the answer is the `__s32` they return: a negative errno code on failure, otherwise `0`
for a write, the byte for a byte read, the word for a word read. -/
abbrev Host := List Op → Op → Int

/-- The private structure `bmp180_t`. -/
structure bmp180_t where
  file : Int
  address : Int
  oss : Int
  i2c_device : Int
  ac1 : Int
  ac2 : Int
  ac3 : Int
  ac4 : Int
  ac5 : Int
  ac6 : Int
  b1 : Int
  b2 : Int
  mb : Int
  mc : Int
  md : Int
  error : Int
  deriving DecidableEq, Repr

/-- Modelled from the spec: the type `bmp180_eprom_t` filled by `bmp180_dump_eprom` is
declared in no file of the repository; the spec calls it a read-only snapshot of the
eleven calibration coefficients, so each field holds the coefficient unchanged. -/
structure bmp180_eprom_t where
  ac1 : Int
  ac2 : Int
  ac3 : Int
  ac4 : Int
  ac5 : Int
  ac6 : Int
  b1 : Int
  b2 : Int
  mb : Int
  mc : Int
  md : Int
  deriving DecidableEq, Repr

/-- The value a `float`-returning function hands back: the sentinel `-FLT_MAX`, the
quotient `n / 10.0` of an integer number of tenths, or the altitude
`44330 * (1 - pow((p/100) / 1013.25, 1/5.255))` computed from the pressure `p` (the
floating point evaluation itself is outside the embedding). -/
inductive CFloat where
  | negFltMax
  | tenths (n : Int)
  | altitude (p : Int)
  deriving DecidableEq, Repr

/-- State after a call that always returns: the instance, the trace, the returned value. -/
structure Raw where
  bmp : bmp180_t
  trace : List Op
  val : Int

/-- State after a call: the instance, the trace of host calls made, and the returned
value; `ret = none` when the call ran into an operation without a value (division by
zero, invalid shift count) after making the calls of `trace`. -/
structure Outcome (α : Type) where
  bmp : bmp180_t
  trace : List Op
  ret : Option α

/-- The live blocks that hold a `bmp180_t`: the content of the block at an address, or
`none` where no such block is allocated (never allocated, or freed). -/
abbrev Heap := Int → Option bmp180_t

/-- State after `bmp180_close`: the heap, the trace, and whether the call stayed within
defined behaviour (`defined = false` when it read a block that is not live). -/
structure CloseOutcome where
  heap : Heap
  trace : List Op
  defined : Bool

/-! ## Helper functions of `bmp180.c` -/

/-- The lookup table `bmp180_register_table`: register address and sign flag. -/
def bmp180_register_table : List (Int × Int) :=
  [ (BMP180_REG_AC1_H, 1),
    (BMP180_REG_AC2_H, 1),
    (BMP180_REG_AC3_H, 1),
    (BMP180_REG_AC4_H, 0),
    (BMP180_REG_AC5_H, 0),
    (BMP180_REG_AC6_H, 0),
    (BMP180_REG_B1_H, 1),
    (BMP180_REG_B2_H, 1),
    (BMP180_REG_MB_H, 1),
    (BMP180_REG_MC_H, 1),
    (BMP180_REG_MD_H, 1) ]

/-- Function `bmp180_set_addr`: the `ioctl(file, I2C_SLAVE, address)` call; returns its result. -/
def bmp180_set_addr (host : Host) (tr : List Op) (bmp : bmp180_t) : List Op × Int :=
  (tr ++ [Op.ioctl_slave bmp.file bmp.address], host tr (Op.ioctl_slave bmp.file bmp.address))

/-- Function `bmp180_read_eprom_reg`: one word read; returns the trace and the value written
through `_store`. -/
def bmp180_read_eprom_reg (host : Host) (tr : List Op) (bmp : bmp180_t) (reg sign : Int) :
    List Op × Int :=
  let data := bitfield (host tr (Op.i2c_smbus_read_word_data bmp.file reg)) 0 16
  let store := bitfield (wrapSigned 32 (data * 2 ^ 8)) 8 16 + sar data 8
  let store := if sign ≠ 0 ∧ store > 32767 then store - 65536 else store
  (tr ++ [Op.i2c_smbus_read_word_data bmp.file reg], store)

/-- The local array `bmp180_register_addr` of `bmp180_read_eprom`: writing `v` through
its `i`-th pointer. -/
def bmp180_register_addr (i : Nat) (v : Int) (bmp : bmp180_t) : bmp180_t :=
  match i with
  | 0 => { bmp with ac1 := v }
  | 1 => { bmp with ac2 := v }
  | 2 => { bmp with ac3 := v }
  | 3 => { bmp with ac4 := v }
  | 4 => { bmp with ac5 := v }
  | 5 => { bmp with ac6 := v }
  | 6 => { bmp with b1 := v }
  | 7 => { bmp with b2 := v }
  | 8 => { bmp with mb := v }
  | 9 => { bmp with mc := v }
  | 10 => { bmp with md := v }
  | _ => bmp

/-- One iteration of the loop of `bmp180_read_eprom`, for index `i`. -/
def bmp180_read_eprom_step (host : Host) (s : List Op × bmp180_t) (i : Nat) :
    List Op × bmp180_t :=
  let reg := (bmp180_register_table.getD i (0, 0)).1 % 256
  let sign := (bmp180_register_table.getD i (0, 0)).2 % 256
  let r := bmp180_read_eprom_reg host s.1 s.2 reg sign
  (r.1, bmp180_register_addr i r.2 s.2)

/-- Function `bmp180_read_eprom`: the loop `for(i = 0; i < 11; i++)`. -/
def bmp180_read_eprom (host : Host) (tr : List Op) (bmp : bmp180_t) : List Op × bmp180_t :=
  (List.range 11).foldl (bmp180_read_eprom_step host) (tr, bmp)

/-- Function `bmp180_read_raw_temperature`: command write, wait, word read.  The field
`error` receives the answer of the write, negated when it is negative. -/
def bmp180_read_raw_temperature (host : Host) (tr : List Op) (bmp : bmp180_t) : Raw :=
  let wr := Op.i2c_smbus_write_byte_data bmp.file BMP180_CTRL BMP180_TMP_READ_CMD
  let error := host tr wr
  let tr := tr ++ [wr]
  if error < 0 then
    { bmp := { bmp with error := error * -1 }, trace := tr, val := -1 }
  else
    let tr := tr ++ [Op.usleep BMP180_TMP_READ_WAIT_US]
    let rd := Op.i2c_smbus_read_word_data bmp.file BMP180_REG_TMP
    let data := bitfield (host tr rd) 0 16
    let data := bitfield (wrapSigned 32 (data * 2 ^ 8)) 8 16 + sar data 8
    { bmp := { bmp with error := error }, trace := tr ++ [rd], val := data }

/-- The `switch(oss)` of `bmp180_read_raw_pressure`: the pair `(wait, cmd)`. -/
def bmp180_read_raw_pressure_switch (oss : Int) : Int × Int :=
  if oss = BMP180_PRE_OSS1 then (BMP180_PRE_OSS1_WAIT_US, BMP180_PRE_OSS1_CMD)
  else if oss = BMP180_PRE_OSS2 then (BMP180_PRE_OSS2_WAIT_US, BMP180_PRE_OSS2_CMD)
  else if oss = BMP180_PRE_OSS3 then (BMP180_PRE_OSS3_WAIT_US, BMP180_PRE_OSS3_CMD)
  else (BMP180_PRE_OSS0_WAIT_US, BMP180_PRE_OSS0_CMD)

/-- Function `bmp180_read_raw_pressure`; `oss` is the `uint8_t` argument. -/
def bmp180_read_raw_pressure (host : Host) (tr : List Op) (bmp : bmp180_t) (oss : Int) :
    Outcome Int :=
  let wait := (bmp180_read_raw_pressure_switch oss).1
  let cmd := (bmp180_read_raw_pressure_switch oss).2
  let wr := Op.i2c_smbus_write_byte_data bmp.file BMP180_CTRL cmd
  let error := host tr wr
  let tr := tr ++ [wr]
  if error < 0 then
    { bmp := { bmp with error := error * -1 }, trace := tr, ret := some (-1) }
  else
    let bmp := { bmp with error := error }
    let tr := tr ++ [Op.usleep wait]
    let rd0 := Op.i2c_smbus_read_byte_data bmp.file BMP180_REG_PRE
    let msb := bitfield (host tr rd0) 0 8
    let tr := tr ++ [rd0]
    let rd1 := Op.i2c_smbus_read_byte_data bmp.file (BMP180_REG_PRE + 1)
    let lsb := bitfield (host tr rd1) 0 8
    let tr := tr ++ [rd1]
    let rd2 := Op.i2c_smbus_read_byte_data bmp.file (BMP180_REG_PRE + 2)
    let xlsb := bitfield (host tr rd2) 0 8
    let tr := tr ++ [rd2]
    { bmp := bmp, trace := tr,
      ret := shr 32 (wrapSigned 32 (wrapSigned 32 (msb * 2 ^ 16) + wrapSigned 32 (lsb * 2 ^ 8)
                + xlsb)) (8 - bmp.oss) }

/-! ## Interface functions of `bmp180.c` -/

/-- Function `bmp180_init_error_cleanup`, for the structure at address `self`: the calls to
`free`. -/
def bmp180_init_error_cleanup (tr : List Op) (self : Int) (bmp : bmp180_t) : List Op :=
  let tr := if bmp.i2c_device ≠ 0 then tr ++ [Op.free bmp.i2c_device] else tr
  tr ++ [Op.free self]

/-- Function `bmp180_init`.  `fresh` is the content of the structure as `malloc` hands it out;
the result is the trace and, unless `NULL` is returned, the address of the structure
with its content. -/
def bmp180_init (host : Host) (tr : List Op) (fresh : bmp180_t) (address : Int)
    (i2c_device_filepath : String) : List Op × Option (Int × bmp180_t) :=
  let self := host tr Op.malloc_struct
  let tr := tr ++ [Op.malloc_struct]
  if self = 0 then (tr, none)
  else
    let bmp := { fresh with address := address }
    let dev := host tr (Op.malloc_string i2c_device_filepath.utf8ByteSize)
    let tr := tr ++ [Op.malloc_string i2c_device_filepath.utf8ByteSize]
    let bmp := { bmp with i2c_device := dev }
    if bmp.i2c_device = 0 then (bmp180_init_error_cleanup tr self bmp, none)
    else
      let file := host tr (Op.open_device i2c_device_filepath)
      let tr := tr ++ [Op.open_device i2c_device_filepath]
      if file < 0 then (bmp180_init_error_cleanup tr self bmp, none)
      else
        let bmp := { bmp with file := file }
        let a := bmp180_set_addr host tr bmp
        if a.2 < 0 then (bmp180_init_error_cleanup a.1 self bmp, none)
        else
          let e := bmp180_read_eprom host a.1 bmp
          let bmp := { e.2 with oss := 0 }
          let bmp := { bmp with error := 0 }
          (e.1, some (self, bmp))

/-- Function `bmp180_close` called with the pointer `_bmp`.  The pointer is passed by
value: the assignment `_bmp = NULL` of line 465 changes the parameter only, and the
pointer held by the caller stays what it was. -/
def bmp180_close (tr : List Op) (heap : Heap) (_bmp : Int) : CloseOutcome :=
  if _bmp = 0 then
    { heap := heap, trace := tr, defined := true }
  else
    match heap _bmp with
    | none => { heap := heap, trace := tr, defined := false }
    | some bmp =>
      let tr := tr ++ [Op.close_file bmp.file]
      let tr := tr ++ [Op.free bmp.i2c_device]
      let tr := tr ++ [Op.free _bmp]
      { heap := fun a => if a = _bmp then none else heap a, trace := tr, defined := true }

/-- Function `bmp180_dump_eprom`. -/
def bmp180_dump_eprom (bmp : bmp180_t) : bmp180_eprom_t :=
  { ac1 := bmp.ac1, ac2 := bmp.ac2, ac3 := bmp.ac3, ac4 := bmp.ac4, ac5 := bmp.ac5,
    ac6 := bmp.ac6, b1 := bmp.b1, b2 := bmp.b2, mb := bmp.mb, mc := bmp.mc, md := bmp.md }

/-- Function `bmp180_get_last_errno`. -/
def bmp180_get_last_errno (bmp : bmp180_t) : Int := bmp.error

/-- Function `bmp180_set_oss`. -/
def bmp180_set_oss (bmp : bmp180_t) (oss : Int) : bmp180_t := { bmp with oss := oss }

/-- The term `X1` of lines 503 and 533 (the two functions compute it by the same
expression), for a host whose `long` has `lb` bits. -/
def bmp180_X1 (lb : Nat) (bmp : bmp180_t) (UT : Int) : Int :=
  sar (wrapSigned lb ((UT - bmp.ac6) * bmp.ac5)) 15

/-- The divisor `X1 + bmp->md` of lines 504 and 534. -/
def bmp180_X1_md (lb : Nat) (bmp : bmp180_t) (UT : Int) : Int :=
  wrapSigned lb (bmp180_X1 lb bmp UT + bmp.md)

/-- The term `B5` of lines 503 to 505 and 533 to 536: `X2 = (mc << 11) / (X1 + md)`,
`B5 = X1 + X2`. -/
def bmp180_B5 (lb : Nat) (bmp : bmp180_t) (UT : Int) : Option Int := do
  let X1 := bmp180_X1 lb bmp UT
  let X2 ← cdiv lb (wrapSigned 32 (bmp.mc * 2 ^ 11)) (bmp180_X1_md lb bmp UT)
  let B5 := wrapSigned lb (X1 + X2)
  pure B5

/-- The arithmetic of `bmp180_temperature` after its raw read (lines 503 to 506): the
number of tenths `(B5 + 8) >> 4` that is divided by `10.0`. -/
def bmp180_temperature_compensate (lb : Nat) (bmp : bmp180_t) (UT : Int) : Option CFloat := do
  let B5 ← bmp180_B5 lb bmp UT
  pure (CFloat.tenths (sar (wrapSigned lb (B5 + 8)) 4))

/-- Function `bmp180_temperature`, for a host whose `long` has `lb` bits. -/
def bmp180_temperature (lb : Nat) (host : Host) (tr : List Op) (bmp : bmp180_t) :
    Outcome CFloat :=
  let t := bmp180_read_raw_temperature host tr bmp
  if t.bmp.error ≠ 0 then
    { bmp := t.bmp, trace := t.trace, ret := some CFloat.negFltMax }
  else
    { bmp := t.bmp, trace := t.trace, ret := bmp180_temperature_compensate lb t.bmp t.val }

/-- The terms `B4` and `B7` of `bmp180_pressure` (lines 538 to 551), from `B5` and the
raw pressure. -/
def bmp180_pressure_B4_B7 (lb : Nat) (bmp : bmp180_t) (B5 UP : Int) : Option (Int × Int) := do
  let B6 := wrapSigned lb (B5 - 4000)
  let X1 := sar (sar (wrapSigned lb (bmp.b2 * (B6 * B6))) 12) 11
  let X2 := sar (wrapSigned lb (bmp.ac2 * B6)) 11
  let X3 := wrapSigned lb (X1 + X2)
  let s ← shl lb (wrapSigned lb (wrapSigned 32 (bmp.ac1 * 4) + X3)) bmp.oss
  let B3 ← cdiv lb (wrapSigned lb (s + 2)) 4
  let X1 := sar (wrapSigned lb (bmp.ac3 * B6)) 13
  let X2 := sar (wrapSigned lb (bmp.b1 * sar (wrapSigned lb (B6 * B6)) 12)) 16
  let X3 := sar (wrapSigned lb ((X1 + X2) + 2)) 2
  let B4 := sar (wrapUnsigned lb (bmp.ac4 * wrapUnsigned lb (X3 + 32768))) 15
  let k ← shr 32 50000 bmp.oss
  let B7 := wrapUnsigned lb ((wrapUnsigned lb UP - B3) * k)
  pure (B4, B7)

/-- The pressure `p` of `bmp180_pressure` (lines 553 to 562), from `B4` and `B7`. -/
def bmp180_pressure_p (lb : Nat) (B4 B7 : Int) : Option Int := do
  let p ← if B7 < 0x80000000 then
            (udiv (wrapUnsigned lb (B7 * 2)) B4).map (wrapSigned lb)
          else
            (udiv B7 B4).map (fun q => wrapSigned lb (wrapUnsigned lb (q * 2)))
  let X1 := wrapSigned lb (sar p 8 * sar p 8)
  let X1 := sar (wrapSigned lb (X1 * 3038)) 16
  let X2 := sar (wrapSigned lb (-7357 * p)) 16
  pure (wrapSigned lb (p + sar (wrapSigned lb (X1 + X2 + 3791)) 4))

/-- The arithmetic of `bmp180_pressure` after its two raw reads (lines 533 to 564), for a
host whose `long` has `lb` bits. -/
def bmp180_pressure_compensate (lb : Nat) (bmp : bmp180_t) (UT UP : Int) : Option Int := do
  let B5 ← bmp180_B5 lb bmp UT
  let (B4, B7) ← bmp180_pressure_B4_B7 lb bmp B5 UP
  bmp180_pressure_p lb B4 B7

/-- Function `bmp180_pressure`, for a host whose `long` has `lb` bits. -/
def bmp180_pressure (lb : Nat) (host : Host) (tr : List Op) (bmp : bmp180_t) : Outcome Int :=
  let t := bmp180_read_raw_temperature host tr bmp
  if t.bmp.error ≠ 0 then
    { bmp := t.bmp, trace := t.trace, ret := some (LONG_MIN lb) }
  else
    let u := bmp180_read_raw_pressure host t.trace t.bmp (t.bmp.oss % 256)
    match u.ret with
    | none => { bmp := u.bmp, trace := u.trace, ret := none }
    | some UP =>
      if u.bmp.error ≠ 0 then
        { bmp := u.bmp, trace := u.trace, ret := some (LONG_MIN lb) }
      else
        { bmp := u.bmp, trace := u.trace,
          ret := bmp180_pressure_compensate lb u.bmp t.val UP }

/-- Function `bmp180_altitude`, for a host whose `long` has `lb` bits. -/
def bmp180_altitude (lb : Nat) (host : Host) (tr : List Op) (bmp : bmp180_t) :
    Outcome CFloat :=
  let r := bmp180_pressure lb host tr bmp
  match r.ret with
  | none => { bmp := r.bmp, trace := r.trace, ret := none }
  | some p =>
    if r.bmp.error ≠ 0 then
      { bmp := r.bmp, trace := r.trace, ret := some CFloat.negFltMax }
    else
      { bmp := r.bmp, trace := r.trace, ret := some (CFloat.altitude p) }

/-! ## Names for the calls the theorems speak about -/

/-- The call writing the temperature command. -/
def tmpWrite (bmp : bmp180_t) : Op :=
  Op.i2c_smbus_write_byte_data bmp.file BMP180_CTRL BMP180_TMP_READ_CMD

/-- The call writing the pressure command selected by the argument `oss`. -/
def preWrite (bmp : bmp180_t) (oss : Int) : Op :=
  Op.i2c_smbus_write_byte_data bmp.file BMP180_CTRL (bmp180_read_raw_pressure_switch oss).2

/-! ## The calibration read, the mode table and the acquisition as the spec words them -/

/-- The byte-swapped 16-bit word assembled from the answer `x` of a word read. -/
def assembled (x : Int) : Int :=
  256 * (x % 65536 % 256) + x % 65536 / 256

/-- The unsigned decode of the answer `x` of a word read: the assembled word. -/
def unsignedDecode (x : Int) : Int :=
  assembled x

/-- The signed decode of the answer `x` of a word read: the assembled word, less 65536
when it exceeds 32767. -/
def signedDecode (x : Int) : Int :=
  if assembled x > 32767 then assembled x - 65536 else assembled x

/-- The eleven calibration word reads on the bus handle `file`, in the spec's order
AC1, AC2, AC3, AC4, AC5, AC6, B1, B2, MB, MC, MD. -/
def epromReads (file : Int) : List Op :=
  [ Op.i2c_smbus_read_word_data file 0xAA, Op.i2c_smbus_read_word_data file 0xAC,
    Op.i2c_smbus_read_word_data file 0xAE, Op.i2c_smbus_read_word_data file 0xB0,
    Op.i2c_smbus_read_word_data file 0xB2, Op.i2c_smbus_read_word_data file 0xB4,
    Op.i2c_smbus_read_word_data file 0xB6, Op.i2c_smbus_read_word_data file 0xB8,
    Op.i2c_smbus_read_word_data file 0xBA, Op.i2c_smbus_read_word_data file 0xBC,
    Op.i2c_smbus_read_word_data file 0xBE ]

/-- The answer of the host to the `i`-th calibration word read, the reads before it
having been made after the trace `tr`. -/
def epromAnswer (host : Host) (tr : List Op) (file : Int) (i : Nat) : Int :=
  host (tr ++ (epromReads file).take i) ((epromReads file).getD i (Op.usleep 0))

/-- The mode table as the spec words it: command byte and wait in microseconds of
modes 0 to 3; any other value falls back to the parameters of mode 0. -/
def modeTable (mode : Int) : Int × Int :=
  if mode = 0 then (0x34, 5000)
  else if mode = 1 then (0x74, 8000)
  else if mode = 2 then (0xB4, 14000)
  else if mode = 3 then (0xF4, 26000)
  else (0x34, 5000)

/-- The calls of a pressure acquisition whose two command writes succeed, on the bus
handle `file`, with pressure command `cmd` and pressure wait `wait`. -/
def acquisitionCalls (file cmd wait : Int) : List Op :=
  [ Op.i2c_smbus_write_byte_data file 0xF4 0x2E, Op.usleep 5000,
    Op.i2c_smbus_read_word_data file 0xF6,
    Op.i2c_smbus_write_byte_data file 0xF4 cmd, Op.usleep wait,
    Op.i2c_smbus_read_byte_data file 0xF6, Op.i2c_smbus_read_byte_data file 0xF7,
    Op.i2c_smbus_read_byte_data file 0xF8 ]

/-! ## Concrete instances and hosts on which the functions are evaluated -/

/-- An instance holding the calibration of the datasheet's worked example, mode 0. -/
def datasheetBmp : bmp180_t :=
  { file := 3, address := 0x77, oss := 0, i2c_device := 1,
    ac1 := 408, ac2 := -72, ac3 := -14383, ac4 := 32741, ac5 := 32757, ac6 := 23153,
    b1 := 6190, b2 := 4, mb := -32768, mc := -8711, md := 2868, error := 0 }

/-- A host on which every call succeeds, the temperature word read answers `0xFA6C`
(the bytes of `27898 = 0x6CFA` in bus order) and the pressure bytes are `0x5D`, `0x23`,
`0x00` (`0x5D2300 >> 8 = 23843`). -/
def datasheetHost : Host := fun _ op =>
  match op with
  | Op.i2c_smbus_read_word_data _ _ => 0xFA6C
  | Op.i2c_smbus_read_byte_data _ reg =>
      if reg = 0xF6 then 0x5D else if reg = 0xF7 then 0x23 else 0
  | _ => 0

/-- A host that answers every call with the same value `x`. -/
def constHost (x : Int) : Host := fun _ _ => x

/-- The datasheet calibration with a zero `AC4`. -/
def zeroAc4Bmp : bmp180_t := { datasheetBmp with ac4 := 0 }

/-- The datasheet calibration with a zero `AC5` and a zero `MD`. -/
def zeroAc5MdBmp : bmp180_t := { datasheetBmp with ac5 := 0, md := 0 }

/-- A host on which allocation, `open` (handle 3) and `ioctl` succeed, the word read of
register `0xAA` fails with the code `-5` (`-EIO`) and every other word read answers
`0x0100` (assembled word 1). -/
def failingReadHost : Host := fun _ op =>
  match op with
  | Op.malloc_struct => 0x1000
  | Op.malloc_string _ => 0x2000
  | Op.open_device _ => 3
  | Op.i2c_smbus_read_word_data _ reg => if reg = 0xAA then -5 else 0x0100
  | _ => 0

/-- The device path of the demo program `test.c`. -/
def devicePath : String := "/dev/i2c-1"

/-- A host on which the write of the temperature command `0x2E` succeeds and every
other command write fails with the code `-5` (`-EIO`); reads answer 0. -/
def pressureWriteFailHost : Host := fun _ op =>
  match op with
  | Op.i2c_smbus_write_byte_data _ _ value => if value = 0x2E then 0 else -5
  | _ => 0

/-- The datasheet instance in the faulted state: last errno 5 (`EIO`). -/
def faultedBmp : bmp180_t := { datasheetBmp with error := 5 }

/-- A host whose very first call fails with the code `-5` (`-EIO`) and which answers
every later call as `datasheetHost` does: a bus that faults once and then works. -/
def failFirstHost : Host := fun tr op =>
  match tr with
  | [] => -5
  | _ :: _ => datasheetHost tr op

/-- Two instances hold the same eleven calibration coefficients and the same mode. -/
def sameCalibration (a b : bmp180_t) : Prop :=
  a.ac1 = b.ac1 ∧ a.ac2 = b.ac2 ∧ a.ac3 = b.ac3 ∧ a.ac4 = b.ac4 ∧ a.ac5 = b.ac5
  ∧ a.ac6 = b.ac6 ∧ a.b1 = b.b1 ∧ a.b2 = b.b2 ∧ a.mb = b.mb ∧ a.mc = b.mc ∧ a.md = b.md
  ∧ a.oss = b.oss

instance sameCalibrationDecidable (a b : bmp180_t) : Decidable (sameCalibration a b) := by
  unfold sameCalibration
  infer_instance

/-! ## Sequences of interface calls -/

/-- A call of the interface made on an instance after its initialisation. -/
inductive Call where
  | set_oss (oss : Int)
  | temperature
  | pressure
  | altitude
  deriving DecidableEq, Repr

/-- The trace and the instance after one call (its result is dropped; when the call
runs into an operation without a value, the state is the one reached at that point). -/
def stepCall (lb : Nat) (host : Host) (s : List Op × bmp180_t) (c : Call) :
    List Op × bmp180_t :=
  match c with
  | Call.set_oss oss => (s.1, bmp180_set_oss s.2 oss)
  | Call.temperature =>
      ((bmp180_temperature lb host s.1 s.2).trace, (bmp180_temperature lb host s.1 s.2).bmp)
  | Call.pressure =>
      ((bmp180_pressure lb host s.1 s.2).trace, (bmp180_pressure lb host s.1 s.2).bmp)
  | Call.altitude =>
      ((bmp180_altitude lb host s.1 s.2).trace, (bmp180_altitude lb host s.1 s.2).bmp)

/-- The trace and the instance after a sequence of calls. -/
def runCalls (lb : Nat) (host : Host) (s : List Op × bmp180_t) (cs : List Call) :
    List Op × bmp180_t :=
  cs.foldl (stepCall lb host) s

/-- The mode a sequence of calls leaves on an instance whose mode was `m`: the argument
of the last `bmp180_set_oss` among them, `m` when there is none. -/
def lastOss (m : Int) (cs : List Call) : Int :=
  cs.foldl (fun acc c => match c with
    | Call.set_oss oss => oss
    | _ => acc) m

/-- The call is not a `bmp180_set_oss` with an argument outside `{0,1,2,3}`. -/
def ossArgValid (c : Call) : Bool :=
  match c with
  | Call.set_oss oss => decide (0 ≤ oss ∧ oss ≤ 3)
  | _ => true

/-- Every `bmp180_set_oss` of the sequence has its argument in `{0,1,2,3}`. -/
def ossArgsValid (cs : List Call) : Prop :=
  ∀ c ∈ cs, ossArgValid c = true

instance ossArgsValidDecidable (cs : List Call) : Decidable (ossArgsValid cs) := by
  unfold ossArgsValid
  infer_instance

/-- A host on which allocation, `open` (handle 3) and every bus call succeed, with the
bus answers of `datasheetHost`. -/
def workingHost : Host := fun tr op =>
  match op with
  | Op.malloc_struct => 0x1000
  | Op.malloc_string _ => 0x2000
  | Op.open_device _ => 3
  | _ => datasheetHost tr op

/-- The trace after `bmp180_init(0x77, "/dev/i2c-1")` on `workingHost`. -/
def workingTrace : List Op :=
  (bmp180_init workingHost [] datasheetBmp 0x77 devicePath).1

/-- The instance which `bmp180_init(0x77, "/dev/i2c-1")` returns on `workingHost`. -/
def workingInstance : bmp180_t :=
  ((bmp180_init workingHost [] datasheetBmp 0x77 devicePath).2.getD (0, datasheetBmp)).2

/-- The heap after `bmp180_init` on `workingHost`: one live structure, at `0x1000`. -/
def workingHeap : Heap := fun a => if a = 0x1000 then some workingInstance else none

/-! ## The temperature formula in exact integer arithmetic -/

/-- The value `x` is representable as a signed integer of `w` bits. -/
def fitsSigned (w : Nat) (x : Int) : Prop :=
  -(2 ^ (w - 1)) ≤ x ∧ x < 2 ^ (w - 1)

instance fitsSignedDecidable (w : Nat) (x : Int) : Decidable (fitsSigned w x) := by
  unfold fitsSigned
  infer_instance

/-- The reference `X1 = floor(((UT - AC6) * AC5) / 2^15)`. -/
def refX1 (bmp : bmp180_t) (UT : Int) : Int :=
  ((UT - bmp.ac6) * bmp.ac5) / 2 ^ 15

/-- The reference `X2 = (MC * 2^11) / (X1 + MD)`, the quotient truncated toward zero. -/
def refX2 (bmp : bmp180_t) (UT : Int) : Int :=
  Int.tdiv (bmp.mc * 2 ^ 11) (refX1 bmp UT + bmp.md)

/-- The reference `B5 = X1 + X2`. -/
def refB5 (bmp : bmp180_t) (UT : Int) : Int :=
  refX1 bmp UT + refX2 bmp UT

/-- The reference number of tenths `floor((B5 + 8) / 16)`. -/
def refTenths (bmp : bmp180_t) (UT : Int) : Int :=
  (refB5 bmp UT + 8) / 16

/-- The datasheet instance with `AC5 = 65535` and `AC6 = 0`, both within the range of
their unsigned 16-bit fields. -/
def wideBmp : bmp180_t := { datasheetBmp with ac5 := 65535, ac6 := 0 }

/-- A host on which every call succeeds and every word read answers `0xFFFF`, so that
the raw temperature is 65535. -/
def allOnesHost : Host := fun _ op =>
  match op with
  | Op.i2c_smbus_read_word_data _ _ => 0xFFFF
  | _ => 0

/-- A host on which the command writes succeed and every byte read fails with the code
`-5` (`-EIO`). -/
def byteReadFailHost : Host := fun _ op =>
  match op with
  | Op.i2c_smbus_read_byte_data _ _ => -5
  | _ => 0

/-- The byte-order correction `((data << 8) & 0xFF00) + (data >> 8)` of lines 257 and
308, on the `int32_t` value `data`. -/
def byteSwap (data : Int) : Int :=
  bitfield (wrapSigned 32 (data * 2 ^ 8)) 8 16 + sar data 8

/-! ## The two raw reads under a given answer to the command write -/

theorem raw_temperature_of_neg (host : Host) (tr : List Op) (bmp : bmp180_t)
    (h : host tr (tmpWrite bmp) < 0) :
    bmp180_read_raw_temperature host tr bmp =
      { bmp := { bmp with error := host tr (tmpWrite bmp) * -1 },
        trace := tr ++ [tmpWrite bmp], val := -1 } := by
  unfold tmpWrite at h
  simp only [bmp180_read_raw_temperature, tmpWrite, if_pos h]

theorem raw_temperature_of_nonneg (host : Host) (tr : List Op) (bmp : bmp180_t)
    (h : ¬ host tr (tmpWrite bmp) < 0) :
    (bmp180_read_raw_temperature host tr bmp).bmp = { bmp with error := host tr (tmpWrite bmp) }
    ∧ (bmp180_read_raw_temperature host tr bmp).trace =
        tr ++ [tmpWrite bmp] ++ [Op.usleep BMP180_TMP_READ_WAIT_US]
          ++ [Op.i2c_smbus_read_word_data bmp.file BMP180_REG_TMP] := by
  unfold tmpWrite at h
  simp only [bmp180_read_raw_temperature, tmpWrite, if_neg h, and_self]

theorem raw_pressure_of_neg (host : Host) (tr : List Op) (bmp : bmp180_t) (oss : Int)
    (h : host tr (preWrite bmp oss) < 0) :
    bmp180_read_raw_pressure host tr bmp oss =
      { bmp := { bmp with error := host tr (preWrite bmp oss) * -1 },
        trace := tr ++ [preWrite bmp oss], ret := some (-1) } := by
  unfold preWrite at h
  simp only [bmp180_read_raw_pressure, preWrite, if_pos h]

theorem raw_pressure_of_nonneg (host : Host) (tr : List Op) (bmp : bmp180_t) (oss : Int)
    (h : ¬ host tr (preWrite bmp oss) < 0) :
    (bmp180_read_raw_pressure host tr bmp oss).bmp
        = { bmp with error := host tr (preWrite bmp oss) }
    ∧ (bmp180_read_raw_pressure host tr bmp oss).trace =
        tr ++ [preWrite bmp oss] ++ [Op.usleep (bmp180_read_raw_pressure_switch oss).1]
          ++ [Op.i2c_smbus_read_byte_data bmp.file BMP180_REG_PRE]
          ++ [Op.i2c_smbus_read_byte_data bmp.file (BMP180_REG_PRE + 1)]
          ++ [Op.i2c_smbus_read_byte_data bmp.file (BMP180_REG_PRE + 2)] := by
  unfold preWrite at h
  simp only [bmp180_read_raw_pressure, preWrite, if_neg h, and_self]

/-- With a temperature command write answered by `0`, `bmp180_temperature` returns the
compensation of the raw reading and records no error. -/
theorem temperature_of_write_ok (lb : Nat) (host : Host) (tr : List Op) (bmp : bmp180_t)
    (h : host tr (tmpWrite bmp) = 0) :
    (bmp180_temperature lb host tr bmp).ret
        = bmp180_temperature_compensate lb bmp (bmp180_read_raw_temperature host tr bmp).val
    ∧ (bmp180_temperature lb host tr bmp).bmp = { bmp with error := 0 } := by
  have hn : ¬ host tr (tmpWrite bmp) < 0 := by rw [h]; decide
  have hb := (raw_temperature_of_nonneg host tr bmp hn).1
  rw [h] at hb
  simp only [bmp180_temperature, hb, ne_eq, not_true_eq_false, if_false, and_true]
  rfl

/-- With both command writes answered by `0`, `bmp180_pressure` returns the compensation
of the two raw readings and records no error. -/
theorem pressure_of_writes_ok (lb : Nat) (host : Host) (tr : List Op) (bmp : bmp180_t)
    (h1 : host tr (tmpWrite bmp) = 0)
    (h2 : host (bmp180_read_raw_temperature host tr bmp).trace
      (preWrite bmp (bmp.oss % 256)) = 0) :
    (bmp180_pressure lb host tr bmp).ret
        = (bmp180_read_raw_pressure host (bmp180_read_raw_temperature host tr bmp).trace
            { bmp with error := 0 } (bmp.oss % 256)).ret.bind
            (bmp180_pressure_compensate lb bmp (bmp180_read_raw_temperature host tr bmp).val)
    ∧ (bmp180_pressure lb host tr bmp).bmp = { bmp with error := 0 } := by
  have hn : ¬ host tr (tmpWrite bmp) < 0 := by rw [h1]; decide
  have hb := (raw_temperature_of_nonneg host tr bmp hn).1
  rw [h1] at hb
  have h2' : host (bmp180_read_raw_temperature host tr bmp).trace
      (preWrite { bmp with error := 0 } (bmp.oss % 256)) = 0 := h2
  have hn2 : ¬ host (bmp180_read_raw_temperature host tr bmp).trace
      (preWrite { bmp with error := 0 } (bmp.oss % 256)) < 0 := by rw [h2']; decide
  have hb2 := (raw_pressure_of_nonneg host _ { bmp with error := 0 } (bmp.oss % 256) hn2).1
  rw [h2'] at hb2
  simp only [bmp180_pressure, hb, ne_eq, not_true_eq_false, if_false]
  cases hr : (bmp180_read_raw_pressure host (bmp180_read_raw_temperature host tr bmp).trace
      { bmp with error := 0 } (bmp.oss % 256)).ret with
  | none => simp only [Option.bind, hb2, and_self]
  | some UP =>
    simp only [hb2, not_true_eq_false, if_false, Option.bind, and_true]
    rfl

/-! ## C1: the datasheet's worked example -/

/-- C1. With the calibration of the datasheet's worked example, mode 0, a bus whose
command writes succeed and whose raw readings are `UT = 27898` and `UP = 23843`,
`bmp180_temperature` computes 150 tenths of a degree (15.0 °C) and `bmp180_pressure`
returns 69964 Pa, on hosts with a 32-bit and with a 64-bit `long`. -/
theorem datasheet_worked_example (lb : Nat) (host : Host) (tr : List Op) (bmp : bmp180_t)
    (hlb : lb = 32 ∨ lb = 64)
    (hcal : bmp.ac1 = 408 ∧ bmp.ac2 = -72 ∧ bmp.ac3 = -14383 ∧ bmp.ac4 = 32741
      ∧ bmp.ac5 = 32757 ∧ bmp.ac6 = 23153 ∧ bmp.b1 = 6190 ∧ bmp.b2 = 4
      ∧ bmp.mb = -32768 ∧ bmp.mc = -8711 ∧ bmp.md = 2868)
    (hoss : bmp.oss = 0)
    (hw : ∀ t reg v, host t (Op.i2c_smbus_write_byte_data bmp.file reg v) = 0)
    (hUT : ∀ t b, b.file = bmp.file → (bmp180_read_raw_temperature host t b).val = 27898)
    (hUP : ∀ t b, b.file = bmp.file → b.oss = 0 →
      (bmp180_read_raw_pressure host t b 0).ret = some 23843) :
    (bmp180_temperature lb host tr bmp).ret = some (CFloat.tenths 150)
    ∧ (bmp180_pressure lb host tr bmp).ret = some 69964
    ∧ (bmp180_pressure lb host tr bmp).bmp.error = 0 := by
  have hv := hUT tr bmp rfl
  obtain ⟨h1, h2, h3, h4, h5, h6, h7, h8, _, h10, h11⟩ := hcal
  refine ⟨?_, ?_, ?_⟩
  · rw [(temperature_of_write_ok lb host tr bmp (hw _ _ _)).1, hv]
    simp only [bmp180_temperature_compensate, bmp180_B5, bmp180_X1_md, bmp180_X1, h5, h6, h10, h11]
    rcases hlb with rfl | rfl <;> decide
  · have h0 : bmp.oss % 256 = 0 := by rw [hoss]; decide
    rw [(pressure_of_writes_ok lb host tr bmp (hw _ _ _) (hw _ _ _)).1, hv, h0,
      hUP _ { bmp with error := 0 } rfl hoss]
    simp only [Option.bind, bmp180_pressure_compensate, bmp180_B5, bmp180_X1_md, bmp180_X1,
      bmp180_pressure_B4_B7, bmp180_pressure_p, h1, h2, h3, h4, h5, h6, h7, h8, h10, h11, hoss]
    rcases hlb with rfl | rfl <;> decide
  · rw [(pressure_of_writes_ok lb host tr bmp (hw _ _ _) (hw _ _ _)).2]

theorem datasheet_worked_example_witness :
    (bmp180_temperature 32 datasheetHost [] datasheetBmp).ret = some (CFloat.tenths 150)
    ∧ (bmp180_pressure 32 datasheetHost [] datasheetBmp).ret = some 69964
    ∧ (bmp180_pressure 32 datasheetHost [] datasheetBmp).bmp.error = 0 :=
  datasheet_worked_example 32 datasheetHost [] datasheetBmp (Or.inl rfl)
    ⟨rfl, rfl, rfl, rfl, rfl, rfl, rfl, rfl, rfl, rfl, rfl⟩ rfl (fun _ _ _ => rfl)
    (fun t b _ => by
      simp only [bmp180_read_raw_temperature, datasheetHost, lt_self_iff_false, if_false]
      decide)
    (fun t b _ ho => by
      simp only [bmp180_read_raw_pressure, datasheetHost, ho, lt_self_iff_false, if_false]
      decide)

/-! ## C2: decode of one calibration word -/

/-- The byte swap `((data << 8) & 0xFF00) + (data >> 8)` of a masked word `x & 0xFFFF`,
as computed in `bmp180_read_eprom_reg` and `bmp180_read_raw_temperature`. -/
theorem swap_masked (x : Int) :
    bitfield (wrapSigned 32 (bitfield x 0 16 * 2 ^ 8)) 8 16 + sar (bitfield x 0 16) 8
      = 256 * (x % 65536 % 256) + x % 65536 / 256 := by
  have h0 : 0 ≤ x % 65536 := Int.emod_nonneg _ (by decide)
  have h1 : x % 65536 < 65536 := Int.emod_lt_of_pos _ (by decide)
  simp only [bitfield, wrapSigned, sar]
  norm_num
  omega

/-- The value `bmp180_read_eprom_reg` stores, for any answer `x` of the word read. -/
theorem read_eprom_reg_store (host : Host) (tr : List Op) (bmp : bmp180_t) (reg sign : Int) :
    (bmp180_read_eprom_reg host tr bmp reg sign).2
      = (if sign ≠ 0 ∧ 256 * (host tr (Op.i2c_smbus_read_word_data bmp.file reg) % 65536 % 256)
              + host tr (Op.i2c_smbus_read_word_data bmp.file reg) % 65536 / 256 > 32767
          then 256 * (host tr (Op.i2c_smbus_read_word_data bmp.file reg) % 65536 % 256)
              + host tr (Op.i2c_smbus_read_word_data bmp.file reg) % 65536 / 256 - 65536
          else 256 * (host tr (Op.i2c_smbus_read_word_data bmp.file reg) % 65536 % 256)
              + host tr (Op.i2c_smbus_read_word_data bmp.file reg) % 65536 / 256) := by
  simp only [bmp180_read_eprom_reg, swap_masked]

/-- C2. For every word `w` in `[0, 65535]` answered by the word read,
`bmp180_read_eprom_reg` stores the byte-swapped word `v = 256 * (w mod 256) + w div 256`,
less 65536 when the sign flag is set and `v > 32767`; a signed field lies in
`[-32768, 32767]` and is the 16-bit two's complement reading of `v`, an unsigned field
lies in `[0, 65535]` and is `v`; assembled `0x8001` gives -32767 signed and 32769
unsigned, assembled `0x7FFF` gives 32767. -/
theorem read_eprom_reg_decode (host : Host) (tr : List Op) (bmp : bmp180_t)
    (reg sign w : Int) (hw0 : 0 ≤ w) (hw1 : w ≤ 65535)
    (hbus : host tr (Op.i2c_smbus_read_word_data bmp.file reg) = w) :
    (bmp180_read_eprom_reg host tr bmp reg sign).2
        = (if sign ≠ 0 ∧ 256 * (w % 256) + w / 256 > 32767
            then 256 * (w % 256) + w / 256 - 65536 else 256 * (w % 256) + w / 256)
    ∧ (sign ≠ 0 →
        -32768 ≤ (bmp180_read_eprom_reg host tr bmp reg sign).2
        ∧ (bmp180_read_eprom_reg host tr bmp reg sign).2 ≤ 32767
        ∧ (bmp180_read_eprom_reg host tr bmp reg sign).2
            = wrapSigned 16 (256 * (w % 256) + w / 256))
    ∧ (sign = 0 →
        0 ≤ (bmp180_read_eprom_reg host tr bmp reg sign).2
        ∧ (bmp180_read_eprom_reg host tr bmp reg sign).2 ≤ 65535
        ∧ (bmp180_read_eprom_reg host tr bmp reg sign).2 = 256 * (w % 256) + w / 256)
    ∧ (256 * (w % 256) + w / 256 = 0x8001 → sign ≠ 0 →
        (bmp180_read_eprom_reg host tr bmp reg sign).2 = -32767)
    ∧ (256 * (w % 256) + w / 256 = 0x7FFF →
        (bmp180_read_eprom_reg host tr bmp reg sign).2 = 32767)
    ∧ (256 * (w % 256) + w / 256 = 0x8001 → sign = 0 →
        (bmp180_read_eprom_reg host tr bmp reg sign).2 = 32769) := by
  have hm : w % 65536 = w := Int.emod_eq_of_lt hw0 (by omega)
  have hs := read_eprom_reg_store host tr bmp reg sign
  rw [hbus, hm] at hs
  have hv0 : 0 ≤ 256 * (w % 256) + w / 256 := by omega
  have hv1 : 256 * (w % 256) + w / 256 ≤ 65535 := by omega
  rw [hs]
  generalize 256 * (w % 256) + w / 256 = v at hv0 hv1 ⊢
  have hws : wrapSigned 16 v = if v > 32767 then v - 65536 else v := by
    simp only [wrapSigned]
    norm_num
    split_ifs <;> omega
  rw [hws]
  refine ⟨rfl, ?_, ?_, ?_, ?_, ?_⟩
  · intro hsg
    split_ifs <;> omega
  · intro hsg
    split_ifs <;> omega
  · intro hv hsg
    split_ifs <;> omega
  · intro hv
    split_ifs <;> omega
  · intro hv hsg
    split_ifs <;> omega

theorem read_eprom_reg_decode_witness :
    (0 : Int) ≤ 0x0180 ∧ (0x0180 : Int) ≤ 65535
    ∧ (bmp180_read_eprom_reg (constHost 0x0180) [] datasheetBmp 0xAA 1).2 = -32767 :=
  ⟨by decide, by decide,
    (read_eprom_reg_decode (constHost 0x0180) [] datasheetBmp 0xAA 1 0x0180
      (by decide) (by decide) rfl).2.2.2.1 (by decide) (by decide)⟩

/-! ## C3: the eleven calibration reads -/

theorem read_eprom_reg_signed (host : Host) (tr : List Op) (bmp : bmp180_t) (reg : Int) :
    bmp180_read_eprom_reg host tr bmp reg 1
      = (tr ++ [Op.i2c_smbus_read_word_data bmp.file reg],
          signedDecode (host tr (Op.i2c_smbus_read_word_data bmp.file reg))) := by
  refine Prod.ext rfl ?_
  rw [read_eprom_reg_store]
  simp only [signedDecode, assembled, ne_eq, one_ne_zero, not_false_eq_true, true_and]

theorem read_eprom_reg_unsigned (host : Host) (tr : List Op) (bmp : bmp180_t) (reg : Int) :
    bmp180_read_eprom_reg host tr bmp reg 0
      = (tr ++ [Op.i2c_smbus_read_word_data bmp.file reg],
          unsignedDecode (host tr (Op.i2c_smbus_read_word_data bmp.file reg))) := by
  refine Prod.ext rfl ?_
  rw [read_eprom_reg_store]
  simp only [unsignedDecode, assembled, ne_eq, not_true_eq_false, false_and, if_false]

/-- The state `bmp180_read_eprom` leaves: the eleven word reads appended to the trace,
and the eleven coefficient fields replaced by the decodes of the answers. -/
theorem read_eprom_eq (host : Host) (tr : List Op) (bmp : bmp180_t) :
    (bmp180_read_eprom host tr bmp).1 = tr ++ epromReads bmp.file
    ∧ (bmp180_read_eprom host tr bmp).2 =
        { bmp with
          ac1 := signedDecode (epromAnswer host tr bmp.file 0)
          ac2 := signedDecode (epromAnswer host tr bmp.file 1)
          ac3 := signedDecode (epromAnswer host tr bmp.file 2)
          ac4 := unsignedDecode (epromAnswer host tr bmp.file 3)
          ac5 := unsignedDecode (epromAnswer host tr bmp.file 4)
          ac6 := unsignedDecode (epromAnswer host tr bmp.file 5)
          b1 := signedDecode (epromAnswer host tr bmp.file 6)
          b2 := signedDecode (epromAnswer host tr bmp.file 7)
          mb := signedDecode (epromAnswer host tr bmp.file 8)
          mc := signedDecode (epromAnswer host tr bmp.file 9)
          md := signedDecode (epromAnswer host tr bmp.file 10) } := by
  have e : bmp180_read_eprom host tr bmp
      = [0, 1, 2, 3, 4, 5, 6, 7, 8, 9, 10].foldl (bmp180_read_eprom_step host) (tr, bmp) := rfl
  rw [e]
  have r1 : BMP180_REG_AC1_H % 256 = 0xAA := by decide
  have r2 : BMP180_REG_AC2_H % 256 = 0xAC := by decide
  have r3 : BMP180_REG_AC3_H % 256 = 0xAE := by decide
  have r4 : BMP180_REG_AC4_H % 256 = 0xB0 := by decide
  have r5 : BMP180_REG_AC5_H % 256 = 0xB2 := by decide
  have r6 : BMP180_REG_AC6_H % 256 = 0xB4 := by decide
  have r7 : BMP180_REG_B1_H % 256 = 0xB6 := by decide
  have r8 : BMP180_REG_B2_H % 256 = 0xB8 := by decide
  have r9 : BMP180_REG_MB_H % 256 = 0xBA := by decide
  have r10 : BMP180_REG_MC_H % 256 = 0xBC := by decide
  have r11 : BMP180_REG_MD_H % 256 = 0xBE := by decide
  have s1 : (1 : Int) % 256 = 1 := by decide
  have s0 : (0 : Int) % 256 = 0 := by decide
  simp only [List.foldl, bmp180_read_eprom_step, bmp180_register_table, List.getD_cons_zero,
    List.getD_cons_succ, bmp180_register_addr, r1, r2, r3, r4, r5, r6, r7, r8, r9, r10, r11,
    s1, s0, read_eprom_reg_signed, read_eprom_reg_unsigned, epromAnswer, epromReads,
    List.take, List.append_assoc, List.singleton_append, List.cons_append, List.nil_append,
    List.append_nil, and_self]

/-- C3. `bmp180_read_eprom` makes exactly eleven host calls, the word reads at `0xAA`,
`0xAC`, ..., `0xBE` in this order, and stores the decode of the i-th answer in the i-th
of AC1, AC2, AC3, AC4, AC5, AC6, B1, B2, MB, MC, MD, signed for AC1, AC2, AC3, B1, B2,
MB, MC, MD and unsigned for AC4, AC5, AC6, leaving the other fields as they were;
`bmp180_dump_eprom` then returns these eleven values. -/
theorem read_eprom_eleven_reads (host : Host) (tr : List Op) (bmp : bmp180_t) :
    (bmp180_read_eprom host tr bmp).1 = tr ++ epromReads bmp.file
    ∧ (epromReads bmp.file).length = 11
    ∧ (bmp180_read_eprom host tr bmp).2 =
        { bmp with
          ac1 := signedDecode (epromAnswer host tr bmp.file 0)
          ac2 := signedDecode (epromAnswer host tr bmp.file 1)
          ac3 := signedDecode (epromAnswer host tr bmp.file 2)
          ac4 := unsignedDecode (epromAnswer host tr bmp.file 3)
          ac5 := unsignedDecode (epromAnswer host tr bmp.file 4)
          ac6 := unsignedDecode (epromAnswer host tr bmp.file 5)
          b1 := signedDecode (epromAnswer host tr bmp.file 6)
          b2 := signedDecode (epromAnswer host tr bmp.file 7)
          mb := signedDecode (epromAnswer host tr bmp.file 8)
          mc := signedDecode (epromAnswer host tr bmp.file 9)
          md := signedDecode (epromAnswer host tr bmp.file 10) }
    ∧ bmp180_dump_eprom (bmp180_read_eprom host tr bmp).2 =
        { ac1 := signedDecode (epromAnswer host tr bmp.file 0)
          ac2 := signedDecode (epromAnswer host tr bmp.file 1)
          ac3 := signedDecode (epromAnswer host tr bmp.file 2)
          ac4 := unsignedDecode (epromAnswer host tr bmp.file 3)
          ac5 := unsignedDecode (epromAnswer host tr bmp.file 4)
          ac6 := unsignedDecode (epromAnswer host tr bmp.file 5)
          b1 := signedDecode (epromAnswer host tr bmp.file 6)
          b2 := signedDecode (epromAnswer host tr bmp.file 7)
          mb := signedDecode (epromAnswer host tr bmp.file 8)
          mc := signedDecode (epromAnswer host tr bmp.file 9)
          md := signedDecode (epromAnswer host tr bmp.file 10) } := by
  refine ⟨(read_eprom_eq host tr bmp).1, rfl, (read_eprom_eq host tr bmp).2, ?_⟩
  rw [(read_eprom_eq host tr bmp).2]
  rfl

/-! ## C4: command byte and wait of the pressure acquisition -/

/-- The `switch` of `bmp180_read_raw_pressure` agrees with the mode table of the spec,
wait first, command second. -/
theorem switch_eq_modeTable (oss : Int) :
    bmp180_read_raw_pressure_switch oss = ((modeTable oss).2, (modeTable oss).1) := by
  simp only [bmp180_read_raw_pressure_switch, modeTable, BMP180_PRE_OSS1, BMP180_PRE_OSS2,
    BMP180_PRE_OSS3, BMP180_PRE_OSS1_WAIT_US, BMP180_PRE_OSS1_CMD, BMP180_PRE_OSS2_WAIT_US,
    BMP180_PRE_OSS2_CMD, BMP180_PRE_OSS3_WAIT_US, BMP180_PRE_OSS3_CMD,
    BMP180_PRE_OSS0_WAIT_US, BMP180_PRE_OSS0_CMD]
  split_ifs <;> first | rfl | omega

/-- With both command writes answered by `0`, the trace of `bmp180_pressure` is the
trace of the two raw reads. -/
theorem pressure_trace_of_writes_ok (lb : Nat) (host : Host) (tr : List Op) (bmp : bmp180_t)
    (h1 : host tr (tmpWrite bmp) = 0)
    (h2 : host (bmp180_read_raw_temperature host tr bmp).trace
      (preWrite bmp (bmp.oss % 256)) = 0) :
    (bmp180_pressure lb host tr bmp).trace
      = tr ++ acquisitionCalls bmp.file (modeTable (bmp.oss % 256)).1
          (modeTable (bmp.oss % 256)).2 := by
  have hn : ¬ host tr (tmpWrite bmp) < 0 := by rw [h1]; decide
  have ht := raw_temperature_of_nonneg host tr bmp hn
  rw [h1] at ht
  have h2' : host (bmp180_read_raw_temperature host tr bmp).trace
      (preWrite { bmp with error := 0 } (bmp.oss % 256)) = 0 := h2
  have hn2 : ¬ host (bmp180_read_raw_temperature host tr bmp).trace
      (preWrite { bmp with error := 0 } (bmp.oss % 256)) < 0 := by rw [h2']; decide
  have hu := raw_pressure_of_nonneg host _ { bmp with error := 0 } (bmp.oss % 256) hn2
  have e : (bmp180_pressure lb host tr bmp).trace
      = (bmp180_read_raw_pressure host (bmp180_read_raw_temperature host tr bmp).trace
          { bmp with error := 0 } (bmp.oss % 256)).trace := by
    simp only [bmp180_pressure, ht.1, ne_eq, not_true_eq_false, if_false]
    cases (bmp180_read_raw_pressure host (bmp180_read_raw_temperature host tr bmp).trace
      { bmp with error := 0 } (bmp.oss % 256)).ret with
    | none => rfl
    | some UP => simp only; split_ifs <;> rfl
  rw [e, hu.2, ht.2]
  simp only [preWrite, tmpWrite, switch_eq_modeTable, acquisitionCalls, List.append_assoc,
    List.singleton_append, List.cons_append, List.nil_append, BMP180_CTRL, BMP180_TMP_READ_CMD,
    BMP180_TMP_READ_WAIT_US, BMP180_REG_TMP, BMP180_REG_PRE]
  norm_num

/-- C4 (as amended). For every value `m` stored by `bmp180_set_oss` and a bus whose
command writes succeed, `bmp180_pressure` makes exactly the calls of one acquisition,
writing to `0xF4` the command byte and then waiting the duration that the mode table
gives for the low byte `m mod 256` (the value received by the `uint8_t` parameter):
`0 -> (0x34, 5000)`, `1 -> (0x74, 8000)`, `2 -> (0xB4, 14000)`, `3 -> (0xF4, 26000)`,
any other low byte the parameters of mode 0; the recorded errno is 0.  For `m` in
`{0,1,2,3}` the low byte is `m`. -/
theorem pressure_mode_parameters (lb : Nat) (host : Host) (tr : List Op) (bmp : bmp180_t)
    (m : Int) (hw : ∀ t reg v, host t (Op.i2c_smbus_write_byte_data bmp.file reg v) = 0) :
    (bmp180_pressure lb host tr (bmp180_set_oss bmp m)).trace
        = tr ++ acquisitionCalls bmp.file (modeTable (m % 256)).1 (modeTable (m % 256)).2
    ∧ (bmp180_pressure lb host tr (bmp180_set_oss bmp m)).bmp.error = 0
    ∧ (m % 256 = 0 → modeTable (m % 256) = (0x34, 5000))
    ∧ (m % 256 = 1 → modeTable (m % 256) = (0x74, 8000))
    ∧ (m % 256 = 2 → modeTable (m % 256) = (0xB4, 14000))
    ∧ (m % 256 = 3 → modeTable (m % 256) = (0xF4, 26000))
    ∧ (¬ (m % 256 = 0 ∨ m % 256 = 1 ∨ m % 256 = 2 ∨ m % 256 = 3) →
        modeTable (m % 256) = (0x34, 5000))
    ∧ (m = 0 ∨ m = 1 ∨ m = 2 ∨ m = 3 → m % 256 = m) := by
  refine ⟨?_, ?_, ?_, ?_, ?_, ?_, ?_, ?_⟩
  · exact pressure_trace_of_writes_ok lb host tr (bmp180_set_oss bmp m) (hw _ _ _) (hw _ _ _)
  · rw [(pressure_of_writes_ok lb host tr (bmp180_set_oss bmp m) (hw _ _ _) (hw _ _ _)).2]
  · intro h; rw [h]; rfl
  · intro h; rw [h]; rfl
  · intro h; rw [h]; rfl
  · intro h; rw [h]; rfl
  · intro h
    simp only [not_or] at h
    simp only [modeTable, h.1, h.2.1, h.2.2.1, h.2.2.2, if_false]
  · intro h
    omega

theorem pressure_mode_parameters_witness :
    (bmp180_pressure 32 (constHost 0) [] (bmp180_set_oss datasheetBmp 2)).trace
        = [] ++ acquisitionCalls 3 0xB4 14000 :=
  (pressure_mode_parameters 32 (constHost 0) [] datasheetBmp 2 (fun _ _ _ => rfl)).1

/-- C4 fails as stated at `m = 257`: the value lies outside `{0,1,2,3}`, yet the
acquisition writes the command `0x74` and waits 8000 us, the parameters of mode 1, not
those of mode 0; the shift count `8 - 257` then has no value. -/
theorem pressure_mode_257_uses_mode_1 :
    ¬ ((257 : Int) = 0 ∨ (257 : Int) = 1 ∨ (257 : Int) = 2 ∨ (257 : Int) = 3)
    ∧ (bmp180_pressure 32 (constHost 0) [] (bmp180_set_oss datasheetBmp 257)).trace
        = acquisitionCalls 3 0x74 8000
    ∧ acquisitionCalls 3 0x74 8000 ≠ acquisitionCalls 3 0x34 5000
    ∧ (bmp180_pressure 32 (constHost 0) [] (bmp180_set_oss datasheetBmp 257)).ret = none := by
  decide

/-! ## C5: assembly of the raw pressure -/

/-- The value `bmp180_read_raw_pressure` returns after a command write that did not
fail: the three masked bytes assembled and shifted by `8 - bmp->oss`, the mode stored
on the instance, whatever the argument `oss`. -/
theorem raw_pressure_ret_of_nonneg (host : Host) (tr : List Op) (bmp : bmp180_t) (oss : Int)
    (h : ¬ host tr (preWrite bmp oss) < 0) :
    (bmp180_read_raw_pressure host tr bmp oss).ret
      = shr 32
          (host (tr ++ [preWrite bmp oss, Op.usleep (bmp180_read_raw_pressure_switch oss).1])
              (Op.i2c_smbus_read_byte_data bmp.file 0xF6) % 256 * 65536
            + host (tr ++ [preWrite bmp oss, Op.usleep (bmp180_read_raw_pressure_switch oss).1,
                Op.i2c_smbus_read_byte_data bmp.file 0xF6])
              (Op.i2c_smbus_read_byte_data bmp.file 0xF7) % 256 * 256
            + host (tr ++ [preWrite bmp oss, Op.usleep (bmp180_read_raw_pressure_switch oss).1,
                Op.i2c_smbus_read_byte_data bmp.file 0xF6,
                Op.i2c_smbus_read_byte_data bmp.file 0xF7])
              (Op.i2c_smbus_read_byte_data bmp.file 0xF8) % 256)
          (8 - bmp.oss) := by
  unfold preWrite at h
  simp only [bmp180_read_raw_pressure, preWrite, if_neg h, BMP180_REG_PRE, List.append_assoc,
    List.singleton_append, List.cons_append, List.nil_append]
  norm_num
  generalize host _ (Op.i2c_smbus_read_byte_data bmp.file 246) = a
  generalize host _ (Op.i2c_smbus_read_byte_data bmp.file 247) = b
  generalize host _ (Op.i2c_smbus_read_byte_data bmp.file 248) = c
  congr 1
  simp only [bitfield, wrapSigned]
  norm_num
  omega

/-- When the argument is the mode of the instance and lies in `{0,1,2,3}`, the raw
pressure is `((msb << 16) + (lsb << 8) + xlsb) >> (8 - m)` for the bytes read. -/
theorem raw_pressure_of_matching_mode (host : Host) (tr : List Op) (bmp : bmp180_t) (m : Nat)
    (msb lsb xlsb : Int) (hm : m ≤ 3) (hoss : bmp.oss = m)
    (hw : host tr (preWrite bmp m) = 0)
    (h0 : host (tr ++ [preWrite bmp m, Op.usleep (bmp180_read_raw_pressure_switch m).1])
      (Op.i2c_smbus_read_byte_data bmp.file 0xF6) = msb)
    (h1 : host (tr ++ [preWrite bmp m, Op.usleep (bmp180_read_raw_pressure_switch m).1,
      Op.i2c_smbus_read_byte_data bmp.file 0xF6])
      (Op.i2c_smbus_read_byte_data bmp.file 0xF7) = lsb)
    (h2 : host (tr ++ [preWrite bmp m, Op.usleep (bmp180_read_raw_pressure_switch m).1,
      Op.i2c_smbus_read_byte_data bmp.file 0xF6, Op.i2c_smbus_read_byte_data bmp.file 0xF7])
      (Op.i2c_smbus_read_byte_data bmp.file 0xF8) = xlsb)
    (b0 : 0 ≤ msb ∧ msb ≤ 255) (b1 : 0 ≤ lsb ∧ lsb ≤ 255) (b2 : 0 ≤ xlsb ∧ xlsb ≤ 255) :
    (bmp180_read_raw_pressure host tr bmp m).ret
      = some (sar (msb * 2 ^ 16 + lsb * 2 ^ 8 + xlsb) (8 - m)) := by
  have hn : ¬ host tr (preWrite bmp m) < 0 := by rw [hw]; decide
  rw [raw_pressure_ret_of_nonneg host tr bmp m hn, h0, h1, h2, hoss,
    Int.emod_eq_of_lt b0.1 (by omega), Int.emod_eq_of_lt b1.1 (by omega),
    Int.emod_eq_of_lt b2.1 (by omega)]
  have hc : (0 : Int) ≤ 8 - (m : Int) ∧ 8 - (m : Int) < ((32 : Nat) : Int) := by
    constructor <;> omega
  have ht : (8 - (m : Int)).toNat = 8 - m := by omega
  simp only [shr, if_pos hc, ht]
  norm_num

/-- C5 (the code at the failing input). On an instance whose mode is 0,
`bmp180_read_raw_pressure(bmp, 3)` writes the command `0xF4` of mode 3 and waits 26000 us
but shifts by `8 - bmp->oss = 8`: it returns `0x5D2300 >> 8 = 23843`, where the claim
has `0x5D2300 >> (8 - 3) = 190744`.  On an instance whose mode is 259, the argument
`(uint8_t) 259 = 3` passed by `bmp180_pressure` selects the same command and the shift
count `8 - 259` has no value. -/
theorem raw_pressure_shift_ignores_argument :
    (bmp180_read_raw_pressure datasheetHost [] datasheetBmp 3).ret = some 23843
    ∧ (bmp180_read_raw_pressure datasheetHost [] datasheetBmp 3).trace
        = [ Op.i2c_smbus_write_byte_data 3 0xF4 0xF4, Op.usleep 26000,
            Op.i2c_smbus_read_byte_data 3 0xF6, Op.i2c_smbus_read_byte_data 3 0xF7,
            Op.i2c_smbus_read_byte_data 3 0xF8 ]
    ∧ sar (0x5D * 2 ^ 16 + 0x23 * 2 ^ 8 + 0x00) (8 - 3) = 190744
    ∧ (bmp180_read_raw_pressure datasheetHost [] (bmp180_set_oss datasheetBmp 259)
        (259 % 256)).ret = none := by
  decide

/-! ## C6: a zero pressure denominator `B4` -/

/-- With `B4 = 0` the division of lines 553 to 557 has no value, on either branch. -/
theorem pressure_p_of_B4_zero (lb : Nat) (B7 : Int) : bmp180_pressure_p lb 0 B7 = none := by
  simp only [bmp180_pressure_p, udiv, if_true, Option.map_none', ite_self]
  rfl

/-- A zero `AC4` makes `B4` zero. -/
theorem B4_zero_of_ac4_zero (lb : Nat) (bmp : bmp180_t) (B5 UP B4 B7 : Int)
    (hac4 : bmp.ac4 = 0) (h : bmp180_pressure_B4_B7 lb bmp B5 UP = some (B4, B7)) :
    B4 = 0 := by
  simp only [bmp180_pressure_B4_B7, hac4, zero_mul, wrapUnsigned, Int.zero_emod, sar,
    Int.zero_ediv, bind, Option.bind_eq_some, pure, Option.some.injEq, Prod.mk.injEq] at h
  obtain ⟨_, _, _, _, _, _, h4, _⟩ := h
  exact h4.symm

/-- C6 (as amended). Whenever the pressure denominator `B4` evaluates to zero (with
`AC4 = 0`, for example), after both command writes succeeded and the terms before it
were computed, `bmp180_pressure` executes the division by `B4` unguarded: the call has no
defined result, no sentinel is returned and the last errno stays 0. -/
theorem pressure_B4_zero_unguarded (lb : Nat) (host : Host) (tr : List Op) (bmp : bmp180_t)
    (UP B5 B4 B7 : Int)
    (h1 : host tr (tmpWrite bmp) = 0)
    (h2 : host (bmp180_read_raw_temperature host tr bmp).trace
      (preWrite bmp (bmp.oss % 256)) = 0)
    (hUP : (bmp180_read_raw_pressure host (bmp180_read_raw_temperature host tr bmp).trace
      { bmp with error := 0 } (bmp.oss % 256)).ret = some UP)
    (hB5 : bmp180_B5 lb bmp (bmp180_read_raw_temperature host tr bmp).val = some B5)
    (hT : bmp180_pressure_B4_B7 lb bmp B5 UP = some (B4, B7))
    (hz : B4 = 0 ∨ bmp.ac4 = 0) :
    B4 = 0
    ∧ (bmp180_pressure lb host tr bmp).ret = none
    ∧ (bmp180_pressure lb host tr bmp).bmp.error = 0 := by
  have hB4 : B4 = 0 := by
    rcases hz with h | h
    · exact h
    · exact B4_zero_of_ac4_zero lb bmp B5 UP B4 B7 h hT
  have hp := pressure_of_writes_ok lb host tr bmp h1 h2
  refine ⟨hB4, ?_, ?_⟩
  · rw [hp.1, hUP]
    simp only [Option.bind, bmp180_pressure_compensate, hB5, hT, bind, hB4,
      pressure_p_of_B4_zero]
  · rw [hp.2]

theorem pressure_B4_zero_unguarded_witness :
    (0 : Int) = 0
    ∧ (bmp180_pressure 32 datasheetHost [] zeroAc4Bmp).ret = none
    ∧ (bmp180_pressure 32 datasheetHost [] zeroAc4Bmp).bmp.error = 0 :=
  pressure_B4_zero_unguarded 32 datasheetHost [] zeroAc4Bmp 23843 2400 0 1171050000
    (by decide) (by decide) (by decide) (by decide) (by decide) (Or.inl rfl)

/-- C6 fails as stated with the datasheet readings and `AC4 = 0`: `B4` is zero, and
`bmp180_pressure` neither returns the sentinel `LONG_MIN` nor records an errno; the
division by zero is executed and the call has no defined result. -/
theorem pressure_zero_ac4_reports_no_fault :
    bmp180_B5 32 zeroAc4Bmp 27898 = some 2400
    ∧ bmp180_pressure_B4_B7 32 zeroAc4Bmp 2400 23843 = some (0, 1171050000)
    ∧ (bmp180_pressure 32 datasheetHost [] zeroAc4Bmp).ret ≠ some (LONG_MIN 32)
    ∧ bmp180_get_last_errno (bmp180_pressure 32 datasheetHost [] zeroAc4Bmp).bmp = 0
    ∧ (bmp180_pressure 32 datasheetHost [] zeroAc4Bmp).ret = none := by
  decide

/-! ## C7: a zero temperature divisor `X1 + MD` -/

theorem wrapSigned_zero (lb : Nat) (h : 0 < lb) : wrapSigned lb 0 = 0 := by
  have e : (2 : Int) ^ lb = 2 * 2 ^ (lb - 1) := by
    obtain ⟨k, rfl⟩ : ∃ k, lb = k + 1 := ⟨lb - 1, by omega⟩
    simp only [Nat.add_sub_cancel, pow_succ]
    ring
  have hp : (0 : Int) < 2 ^ (lb - 1) := by positivity
  simp only [wrapSigned, zero_add]
  rw [Int.emod_eq_of_lt (le_of_lt hp) (by rw [e]; omega)]
  omega

/-- With `AC5 = 0` and `MD = 0` the divisor `X1 + MD` is zero. -/
theorem X1_md_zero_of_ac5_md_zero (lb : Nat) (bmp : bmp180_t) (UT : Int) (h : 0 < lb)
    (h5 : bmp.ac5 = 0) (hmd : bmp.md = 0) : bmp180_X1_md lb bmp UT = 0 := by
  simp only [bmp180_X1_md, bmp180_X1, h5, hmd, mul_zero, wrapSigned_zero lb h, sar,
    Int.zero_ediv, add_zero]

/-- With a zero divisor `X1 + MD` the term `B5` has no value. -/
theorem B5_of_divisor_zero (lb : Nat) (bmp : bmp180_t) (UT : Int)
    (h : bmp180_X1_md lb bmp UT = 0) : bmp180_B5 lb bmp UT = none := by
  simp only [bmp180_B5, h, cdiv, if_true]
  rfl

/-- C7 (as amended). Whenever the temperature divisor `X1 + MD` evaluates to zero (in
particular with `AC5 = 0` and `MD = 0`) on a bus whose command writes succeed,
`bmp180_temperature` and `bmp180_pressure` execute the division `(MC << 11) / (X1 + MD)`
unguarded: neither call has a defined result, no sentinel is returned and the last errno
stays 0. -/
theorem temperature_divisor_zero_unguarded (lb : Nat) (host : Host) (tr : List Op) (bmp : bmp180_t)
    (hw : ∀ t reg v, host t (Op.i2c_smbus_write_byte_data bmp.file reg v) = 0)
    (hz : bmp180_X1_md lb bmp (bmp180_read_raw_temperature host tr bmp).val = 0
      ∨ (0 < lb ∧ bmp.ac5 = 0 ∧ bmp.md = 0)) :
    bmp180_X1_md lb bmp (bmp180_read_raw_temperature host tr bmp).val = 0
    ∧ (bmp180_temperature lb host tr bmp).ret = none
    ∧ (bmp180_temperature lb host tr bmp).bmp.error = 0
    ∧ (bmp180_pressure lb host tr bmp).ret = none
    ∧ (bmp180_pressure lb host tr bmp).bmp.error = 0 := by
  have hd : bmp180_X1_md lb bmp (bmp180_read_raw_temperature host tr bmp).val = 0 := by
    rcases hz with h | ⟨h, h5, hmd⟩
    · exact h
    · exact X1_md_zero_of_ac5_md_zero lb bmp _ h h5 hmd
  have hB5 := B5_of_divisor_zero lb bmp _ hd
  have ht := temperature_of_write_ok lb host tr bmp (hw _ _ _)
  have hp := pressure_of_writes_ok lb host tr bmp (hw _ _ _) (hw _ _ _)
  refine ⟨hd, ?_, ?_, ?_, ?_⟩
  · rw [ht.1]
    simp only [bmp180_temperature_compensate, hB5]
    rfl
  · rw [ht.2]
  · rw [hp.1]
    cases (bmp180_read_raw_pressure host (bmp180_read_raw_temperature host tr bmp).trace
      { bmp with error := 0 } (bmp.oss % 256)).ret with
    | none => rfl
    | some UP =>
      simp only [Option.bind, bmp180_pressure_compensate, hB5]
      rfl
  · rw [hp.2]

theorem temperature_divisor_zero_unguarded_witness :
    (∀ (t : List Op) (reg v : Int),
        datasheetHost t (Op.i2c_smbus_write_byte_data zeroAc5MdBmp.file reg v) = 0)
    ∧ (bmp180_temperature 32 datasheetHost [] zeroAc5MdBmp).ret = none
    ∧ (bmp180_pressure 32 datasheetHost [] zeroAc5MdBmp).ret = none :=
  ⟨fun _ _ _ => rfl,
    (temperature_divisor_zero_unguarded 32 datasheetHost [] zeroAc5MdBmp (fun _ _ _ => rfl)
      (Or.inr ⟨by decide, rfl, rfl⟩)).2.1,
    (temperature_divisor_zero_unguarded 32 datasheetHost [] zeroAc5MdBmp (fun _ _ _ => rfl)
      (Or.inr ⟨by decide, rfl, rfl⟩)).2.2.2.1⟩

/-- C7 fails as stated with the datasheet readings, `AC5 = 0` and `MD = 0`: the divisor
`X1 + MD` is zero, and neither `bmp180_temperature` nor `bmp180_pressure` returns its
sentinel or records an errno; the division by zero is executed. -/
theorem temperature_zero_divisor_reports_no_fault :
    bmp180_X1_md 32 zeroAc5MdBmp 27898 = 0
    ∧ (bmp180_read_raw_temperature datasheetHost [] zeroAc5MdBmp).val = 27898
    ∧ (bmp180_temperature 32 datasheetHost [] zeroAc5MdBmp).ret ≠ some CFloat.negFltMax
    ∧ bmp180_get_last_errno (bmp180_temperature 32 datasheetHost [] zeroAc5MdBmp).bmp = 0
    ∧ (bmp180_pressure 32 datasheetHost [] zeroAc5MdBmp).ret ≠ some (LONG_MIN 32)
    ∧ bmp180_get_last_errno (bmp180_pressure 32 datasheetHost [] zeroAc5MdBmp).bmp = 0 := by
  decide

/-! ## C8: a failing calibration word read -/

/-- C8 (as amended). Calibration reading does not look at the result of a word read:
when allocation, `open` and the address selection succeed, `bmp180_init` makes all
eleven word reads whatever they answer, stores in each field the decode of the low 16
bits of the answer (of the negative code, for a read that failed), and returns
an instance whose last errno is 0 and whose mode is 0. -/
theorem init_ignores_read_failure (host : Host) (tr : List Op) (fresh : bmp180_t)
    (address : Int) (path : String) (self dev file : Int)
    (h1 : host tr Op.malloc_struct = self) (hs : self ≠ 0)
    (h2 : host (tr ++ [Op.malloc_struct]) (Op.malloc_string path.utf8ByteSize) = dev)
    (hd : dev ≠ 0)
    (h3 : host (tr ++ [Op.malloc_struct, Op.malloc_string path.utf8ByteSize])
      (Op.open_device path) = file)
    (hf : ¬ file < 0)
    (h4 : ¬ host (tr ++ [Op.malloc_struct, Op.malloc_string path.utf8ByteSize,
      Op.open_device path]) (Op.ioctl_slave file address) < 0) :
    bmp180_init host tr fresh address path
      = (tr ++ [Op.malloc_struct, Op.malloc_string path.utf8ByteSize, Op.open_device path,
            Op.ioctl_slave file address] ++ epromReads file,
          some (self,
            { file := file, address := address, oss := 0, i2c_device := dev,
              ac1 := signedDecode (epromAnswer host (tr ++ [Op.malloc_struct,
                Op.malloc_string path.utf8ByteSize, Op.open_device path,
                Op.ioctl_slave file address]) file 0),
              ac2 := signedDecode (epromAnswer host (tr ++ [Op.malloc_struct,
                Op.malloc_string path.utf8ByteSize, Op.open_device path,
                Op.ioctl_slave file address]) file 1),
              ac3 := signedDecode (epromAnswer host (tr ++ [Op.malloc_struct,
                Op.malloc_string path.utf8ByteSize, Op.open_device path,
                Op.ioctl_slave file address]) file 2),
              ac4 := unsignedDecode (epromAnswer host (tr ++ [Op.malloc_struct,
                Op.malloc_string path.utf8ByteSize, Op.open_device path,
                Op.ioctl_slave file address]) file 3),
              ac5 := unsignedDecode (epromAnswer host (tr ++ [Op.malloc_struct,
                Op.malloc_string path.utf8ByteSize, Op.open_device path,
                Op.ioctl_slave file address]) file 4),
              ac6 := unsignedDecode (epromAnswer host (tr ++ [Op.malloc_struct,
                Op.malloc_string path.utf8ByteSize, Op.open_device path,
                Op.ioctl_slave file address]) file 5),
              b1 := signedDecode (epromAnswer host (tr ++ [Op.malloc_struct,
                Op.malloc_string path.utf8ByteSize, Op.open_device path,
                Op.ioctl_slave file address]) file 6),
              b2 := signedDecode (epromAnswer host (tr ++ [Op.malloc_struct,
                Op.malloc_string path.utf8ByteSize, Op.open_device path,
                Op.ioctl_slave file address]) file 7),
              mb := signedDecode (epromAnswer host (tr ++ [Op.malloc_struct,
                Op.malloc_string path.utf8ByteSize, Op.open_device path,
                Op.ioctl_slave file address]) file 8),
              mc := signedDecode (epromAnswer host (tr ++ [Op.malloc_struct,
                Op.malloc_string path.utf8ByteSize, Op.open_device path,
                Op.ioctl_slave file address]) file 9),
              md := signedDecode (epromAnswer host (tr ++ [Op.malloc_struct,
                Op.malloc_string path.utf8ByteSize, Op.open_device path,
                Op.ioctl_slave file address]) file 10),
              error := 0 })) := by
  have h2' : host (tr ++ [Op.malloc_struct]) (Op.malloc_string path.utf8ByteSize) ≠ 0 := by
    rw [h2]; exact hd
  subst h1 h3
  simp only [List.append_assoc, List.singleton_append, List.cons_append,
    List.nil_append] at h4 hf ⊢
  simp only [bmp180_init, if_neg hs, if_neg h2', List.append_assoc, List.singleton_append,
    List.cons_append, List.nil_append, if_neg hf, bmp180_set_addr, if_neg h4, h2, if_neg hd]
  refine Prod.ext ?_ ?_
  · simp only [(read_eprom_eq host _ _).1, List.append_assoc, List.singleton_append,
      List.cons_append, List.nil_append]
  · simp only [(read_eprom_eq host _ _).2, List.append_assoc, List.singleton_append,
      List.cons_append, List.nil_append]

theorem init_ignores_read_failure_witness :
    (bmp180_init failingReadHost [] datasheetBmp 0x77 devicePath).1
      = [] ++ [Op.malloc_struct, Op.malloc_string devicePath.utf8ByteSize,
          Op.open_device devicePath, Op.ioctl_slave 3 0x77] ++ epromReads 3 :=
  congrArg Prod.fst
    (init_ignores_read_failure failingReadHost [] datasheetBmp 0x77 devicePath
      0x1000 0x2000 3 rfl (by decide) rfl (by decide) rfl (by decide) (by decide))

/-- C8 fails as stated on a host whose first calibration word read (register `0xAA`)
fails with `-5`: `bmp180_init` still makes all eleven word reads and returns
an instance, with last errno 0, whose `AC1` is -1025, the signed decode of the low 16
bits `0xFFFB` of the error code. -/
theorem init_returns_instance_after_failed_read :
    failingReadHost [Op.malloc_struct, Op.malloc_string 10, Op.open_device devicePath,
        Op.ioctl_slave 3 0x77] (Op.i2c_smbus_read_word_data 3 0xAA) = -5
    ∧ (bmp180_init failingReadHost [] datasheetBmp 0x77 devicePath).1
        = [Op.malloc_struct, Op.malloc_string 10, Op.open_device devicePath,
            Op.ioctl_slave 3 0x77] ++ epromReads 3
    ∧ (bmp180_init failingReadHost [] datasheetBmp 0x77 devicePath).2 ≠ none
    ∧ (bmp180_init failingReadHost [] datasheetBmp 0x77 devicePath).2.map
        (fun r => r.2.ac1) = some (-1025)
    ∧ (bmp180_init failingReadHost [] datasheetBmp 0x77 devicePath).2.map
        (fun r => bmp180_get_last_errno r.2) = some 0
    ∧ signedDecode (-5) = -1025 := by
  decide

/-! ## C9: the sentinel of the raw temperature read -/

/-- C9. `bmp180_read_raw_temperature` returns -1 exactly when the write of command
`0x2E` to register `0xF4` answers a negative code `r`; it then records the positive
errno `-r` and makes no further call (no register read).  Otherwise it waits 5000 us,
reads the word at `0xF6` and returns its low 16 bits byte-swapped, a value in
`[0, 65535]` (the byte swap of the word itself when the read answers a word). -/
theorem raw_temperature_sentinel (host : Host) (tr : List Op) (bmp : bmp180_t) :
    ((bmp180_read_raw_temperature host tr bmp).val = -1
        ↔ host tr (Op.i2c_smbus_write_byte_data bmp.file 0xF4 0x2E) < 0)
    ∧ (host tr (Op.i2c_smbus_write_byte_data bmp.file 0xF4 0x2E) < 0 →
        (bmp180_read_raw_temperature host tr bmp).bmp.error
            = -(host tr (Op.i2c_smbus_write_byte_data bmp.file 0xF4 0x2E))
        ∧ 0 < (bmp180_read_raw_temperature host tr bmp).bmp.error
        ∧ (bmp180_read_raw_temperature host tr bmp).trace
            = tr ++ [Op.i2c_smbus_write_byte_data bmp.file 0xF4 0x2E])
    ∧ (¬ host tr (Op.i2c_smbus_write_byte_data bmp.file 0xF4 0x2E) < 0 →
        (bmp180_read_raw_temperature host tr bmp).trace
            = tr ++ [Op.i2c_smbus_write_byte_data bmp.file 0xF4 0x2E, Op.usleep 5000,
                Op.i2c_smbus_read_word_data bmp.file 0xF6]
        ∧ (bmp180_read_raw_temperature host tr bmp).val
            = assembled (host (tr ++ [Op.i2c_smbus_write_byte_data bmp.file 0xF4 0x2E,
                Op.usleep 5000]) (Op.i2c_smbus_read_word_data bmp.file 0xF6))
        ∧ 0 ≤ (bmp180_read_raw_temperature host tr bmp).val
        ∧ (bmp180_read_raw_temperature host tr bmp).val ≤ 65535
        ∧ ∀ w : Int, 0 ≤ w → w ≤ 65535 →
            host (tr ++ [Op.i2c_smbus_write_byte_data bmp.file 0xF4 0x2E, Op.usleep 5000])
              (Op.i2c_smbus_read_word_data bmp.file 0xF6) = w →
            (bmp180_read_raw_temperature host tr bmp).val = 256 * (w % 256) + w / 256) := by
  have key : ∀ x : Int, 0 ≤ assembled x ∧ assembled x ≤ 65535 := by
    intro x
    unfold assembled
    omega
  by_cases h : host tr (Op.i2c_smbus_write_byte_data bmp.file 0xF4 0x2E) < 0
  · have e := raw_temperature_of_neg host tr bmp h
    simp only [tmpWrite, BMP180_CTRL, BMP180_TMP_READ_CMD] at e
    rw [e]
    refine ⟨⟨fun _ => h, fun _ => rfl⟩, fun _ => ⟨?_, ?_, rfl⟩, fun h' => absurd h h'⟩
    · simp only; omega
    · simp only; omega
  · have ev : (bmp180_read_raw_temperature host tr bmp).val
        = assembled (host (tr ++ [Op.i2c_smbus_write_byte_data bmp.file 0xF4 0x2E,
            Op.usleep 5000]) (Op.i2c_smbus_read_word_data bmp.file 0xF6)) := by
      have h' : ¬ host tr (Op.i2c_smbus_write_byte_data bmp.file BMP180_CTRL
          BMP180_TMP_READ_CMD) < 0 := h
      simp only [bmp180_read_raw_temperature, if_neg h', swap_masked, assembled,
        List.append_assoc, List.singleton_append, List.cons_append, List.nil_append]
      rfl
    have et := (raw_temperature_of_nonneg host tr bmp h).2
    simp only [tmpWrite, BMP180_CTRL, BMP180_TMP_READ_CMD, BMP180_TMP_READ_WAIT_US,
      BMP180_REG_TMP, List.append_assoc, List.singleton_append, List.cons_append,
      List.nil_append] at et
    have k := key (host (tr ++ [Op.i2c_smbus_write_byte_data bmp.file 0xF4 0x2E,
            Op.usleep 5000]) (Op.i2c_smbus_read_word_data bmp.file 0xF6))
    refine ⟨⟨fun hv => ?_, fun hn => absurd hn h⟩, fun hn => absurd hn h,
      fun _ => ⟨et, ev, ?_, ?_, ?_⟩⟩
    · rw [ev] at hv; omega
    · rw [ev]; exact k.1
    · rw [ev]; exact k.2
    · intro w hw0 hw1 hw
      rw [ev, hw, assembled, Int.emod_eq_of_lt hw0 (by omega)]

/-! ## C10: `bmp180_pressure` after a failed command write -/

/-- C10. `bmp180_pressure` returns `LONG_MIN` with a nonzero last errno whenever the
temperature command write or the pressure command write answers a negative code `r`,
the errno being `-r` of the failing write; after a failed temperature command write no
further call is made (no pressure command, no register read), and after a failed
pressure command write no result register of the pressure is read. -/
theorem pressure_sentinel_on_write_failure (lb : Nat) (host : Host) (tr : List Op)
    (bmp : bmp180_t) :
    (host tr (Op.i2c_smbus_write_byte_data bmp.file 0xF4 0x2E) < 0 →
        (bmp180_pressure lb host tr bmp).ret = some (LONG_MIN lb)
        ∧ bmp180_get_last_errno (bmp180_pressure lb host tr bmp).bmp
            = -(host tr (Op.i2c_smbus_write_byte_data bmp.file 0xF4 0x2E))
        ∧ bmp180_get_last_errno (bmp180_pressure lb host tr bmp).bmp ≠ 0
        ∧ (bmp180_pressure lb host tr bmp).trace
            = tr ++ [Op.i2c_smbus_write_byte_data bmp.file 0xF4 0x2E])
    ∧ (host tr (Op.i2c_smbus_write_byte_data bmp.file 0xF4 0x2E) = 0 →
        host (tr ++ [Op.i2c_smbus_write_byte_data bmp.file 0xF4 0x2E, Op.usleep 5000,
            Op.i2c_smbus_read_word_data bmp.file 0xF6])
          (Op.i2c_smbus_write_byte_data bmp.file 0xF4 (modeTable (bmp.oss % 256)).1) < 0 →
        (bmp180_pressure lb host tr bmp).ret = some (LONG_MIN lb)
        ∧ bmp180_get_last_errno (bmp180_pressure lb host tr bmp).bmp
            = -(host (tr ++ [Op.i2c_smbus_write_byte_data bmp.file 0xF4 0x2E, Op.usleep 5000,
                  Op.i2c_smbus_read_word_data bmp.file 0xF6])
                (Op.i2c_smbus_write_byte_data bmp.file 0xF4 (modeTable (bmp.oss % 256)).1))
        ∧ bmp180_get_last_errno (bmp180_pressure lb host tr bmp).bmp ≠ 0
        ∧ (bmp180_pressure lb host tr bmp).trace
            = tr ++ [Op.i2c_smbus_write_byte_data bmp.file 0xF4 0x2E, Op.usleep 5000,
                Op.i2c_smbus_read_word_data bmp.file 0xF6,
                Op.i2c_smbus_write_byte_data bmp.file 0xF4 (modeTable (bmp.oss % 256)).1]) := by
  constructor
  · intro h
    have e := raw_temperature_of_neg host tr bmp h
    simp only [tmpWrite, BMP180_CTRL, BMP180_TMP_READ_CMD] at e
    have hne : host tr (Op.i2c_smbus_write_byte_data bmp.file 0xF4 0x2E) * -1 ≠ 0 := by omega
    simp only [bmp180_pressure, e, ne_eq, hne, not_false_eq_true, if_true,
      bmp180_get_last_errno, true_and, and_true]
    omega
  · intro h0 h
    have hn : ¬ host tr (tmpWrite bmp) < 0 := by
      simp only [tmpWrite, BMP180_CTRL, BMP180_TMP_READ_CMD, h0]; decide
    have ht := raw_temperature_of_nonneg host tr bmp hn
    simp only [tmpWrite, BMP180_CTRL, BMP180_TMP_READ_CMD, BMP180_TMP_READ_WAIT_US,
      BMP180_REG_TMP, List.append_assoc, List.singleton_append, List.cons_append,
      List.nil_append, h0] at ht
    have hp : host (bmp180_read_raw_temperature host tr bmp).trace
        (preWrite { bmp with error := 0 } (bmp.oss % 256)) < 0 := by
      simp only [ht.2, preWrite, switch_eq_modeTable, BMP180_CTRL]
      exact h
    have eu := raw_pressure_of_neg host _ { bmp with error := 0 } (bmp.oss % 256) hp
    simp only [ht.2, preWrite, switch_eq_modeTable, BMP180_CTRL] at eu hp
    have hne : host (tr ++ [Op.i2c_smbus_write_byte_data bmp.file 0xF4 0x2E, Op.usleep 5000,
            Op.i2c_smbus_read_word_data bmp.file 0xF6])
          (Op.i2c_smbus_write_byte_data bmp.file 0xF4 (modeTable (bmp.oss % 256)).1) * -1
            ≠ 0 := by omega
    simp only [bmp180_pressure, ht.1, ht.2, ne_eq, not_true_eq_false, if_false, eu, hne,
      not_false_eq_true, if_true, bmp180_get_last_errno, true_and, List.append_assoc,
      List.singleton_append, List.cons_append, List.nil_append, and_true]
    omega

theorem pressure_sentinel_on_write_failure_witness :
    (bmp180_pressure 32 (constHost (-5)) [] datasheetBmp).ret = some (LONG_MIN 32)
    ∧ bmp180_get_last_errno (bmp180_pressure 32 (constHost (-5)) [] datasheetBmp).bmp = 5
    ∧ (bmp180_pressure 32 pressureWriteFailHost [] datasheetBmp).ret = some (LONG_MIN 32)
    ∧ bmp180_get_last_errno (bmp180_pressure 32 pressureWriteFailHost [] datasheetBmp).bmp
        = 5 :=
  ⟨((pressure_sentinel_on_write_failure 32 (constHost (-5)) [] datasheetBmp).1
      (by decide)).1,
    ((pressure_sentinel_on_write_failure 32 (constHost (-5)) [] datasheetBmp).1
      (by decide)).2.1,
    ((pressure_sentinel_on_write_failure 32 pressureWriteFailHost [] datasheetBmp).2
      (by decide) (by decide)).1,
    ((pressure_sentinel_on_write_failure 32 pressureWriteFailHost [] datasheetBmp).2
      (by decide) (by decide)).2.1⟩

/-! ## C11: the last errno after initialisation and after an acquisition -/

/-- An instance returned by `bmp180_init` has last errno 0 and mode 0. -/
theorem init_some_error_oss (host : Host) (tr : List Op) (fresh : bmp180_t) (address : Int)
    (path : String) (tr' : List Op) (self : Int) (bmp : bmp180_t)
    (h : bmp180_init host tr fresh address path = (tr', some (self, bmp))) :
    bmp.error = 0 ∧ bmp.oss = 0 := by
  unfold bmp180_init at h
  simp only at h
  split_ifs at h
  · exact absurd (Prod.mk.inj h).2 (by simp)
  · exact absurd (Prod.mk.inj h).2 (by simp)
  · exact absurd (Prod.mk.inj h).2 (by simp)
  · exact absurd (Prod.mk.inj h).2 (by simp)
  · obtain ⟨_, h2⟩ := Prod.mk.inj h
    obtain ⟨_, h3⟩ := Prod.mk.inj (Option.some.inj h2)
    rw [← h3]
    exact ⟨rfl, rfl⟩

/-- The instance and the trace `bmp180_altitude` leaves are those of its call to
`bmp180_pressure`. -/
theorem altitude_bmp_trace (lb : Nat) (host : Host) (tr : List Op) (bmp : bmp180_t) :
    (bmp180_altitude lb host tr bmp).bmp = (bmp180_pressure lb host tr bmp).bmp
    ∧ (bmp180_altitude lb host tr bmp).trace = (bmp180_pressure lb host tr bmp).trace := by
  simp only [bmp180_altitude]
  cases (bmp180_pressure lb host tr bmp).ret with
  | none => exact ⟨rfl, rfl⟩
  | some p => simp only; split_ifs <;> exact ⟨rfl, rfl⟩

/-- After a temperature command write answered by a negative code, `bmp180_temperature`
returns the sentinel with the negated code as errno. -/
theorem temperature_of_write_neg (lb : Nat) (host : Host) (tr : List Op) (bmp : bmp180_t)
    (h : host tr (tmpWrite bmp) < 0) :
    bmp180_temperature lb host tr bmp
      = { bmp := { bmp with error := host tr (tmpWrite bmp) * -1 },
          trace := tr ++ [tmpWrite bmp], ret := some CFloat.negFltMax } := by
  have hne : host tr (tmpWrite bmp) * -1 ≠ 0 := by omega
  simp only [bmp180_temperature, raw_temperature_of_neg host tr bmp h, ne_eq, hne,
    not_false_eq_true, if_true]

/-- After a temperature command write answered by a negative code, `bmp180_pressure`
returns the sentinel with the negated code as errno. -/
theorem pressure_of_tmp_write_neg (lb : Nat) (host : Host) (tr : List Op) (bmp : bmp180_t)
    (h : host tr (tmpWrite bmp) < 0) :
    bmp180_pressure lb host tr bmp
      = { bmp := { bmp with error := host tr (tmpWrite bmp) * -1 },
          trace := tr ++ [tmpWrite bmp], ret := some (LONG_MIN lb) } := by
  have hne : host tr (tmpWrite bmp) * -1 ≠ 0 := by omega
  simp only [bmp180_pressure, raw_temperature_of_neg host tr bmp h, ne_eq, hne,
    not_false_eq_true, if_true]

/-- After a successful temperature command write and a pressure command write answered
by a negative code, `bmp180_pressure` returns the sentinel with the negated code as
errno. -/
theorem pressure_of_pre_write_neg (lb : Nat) (host : Host) (tr : List Op) (bmp : bmp180_t)
    (h1 : host tr (tmpWrite bmp) = 0)
    (h2 : host (bmp180_read_raw_temperature host tr bmp).trace
      (preWrite bmp (bmp.oss % 256)) < 0) :
    (bmp180_pressure lb host tr bmp).ret = some (LONG_MIN lb)
    ∧ (bmp180_pressure lb host tr bmp).bmp.error
        = host (bmp180_read_raw_temperature host tr bmp).trace
            (preWrite bmp (bmp.oss % 256)) * -1
    ∧ (bmp180_pressure lb host tr bmp).trace
        = (bmp180_read_raw_temperature host tr bmp).trace ++ [preWrite bmp (bmp.oss % 256)] := by
  have hn : ¬ host tr (tmpWrite bmp) < 0 := by rw [h1]; decide
  have hb := (raw_temperature_of_nonneg host tr bmp hn).1
  rw [h1] at hb
  have h2' : host (bmp180_read_raw_temperature host tr bmp).trace
      (preWrite { bmp with error := 0 } (bmp.oss % 256)) < 0 := h2
  have eu := raw_pressure_of_neg host _ { bmp with error := 0 } (bmp.oss % 256) h2'
  have hne : host (bmp180_read_raw_temperature host tr bmp).trace
      (preWrite { bmp with error := 0 } (bmp.oss % 256)) * -1 ≠ 0 := by omega
  simp only [bmp180_pressure, hb, ne_eq, not_true_eq_false, if_false, eu, hne,
    not_false_eq_true, if_true, true_and]
  exact ⟨rfl, rfl⟩

/-- C11. `bmp180_get_last_errno` is 0 on an instance just returned by `bmp180_init`; it
is 0 after a `bmp180_temperature`, `bmp180_pressure` or `bmp180_altitude` call all of
whose command writes answered 0, whatever the errno was before the call; and it is
nonzero after a call in which a command write answered a negative code. -/
theorem last_errno_after_calls (lb : Nat) (host : Host) (tr : List Op) (bmp : bmp180_t)
    (fresh : bmp180_t) (address : Int) (path : String) (tr' : List Op) (self : Int)
    (b0 : bmp180_t) :
    (bmp180_init host tr fresh address path = (tr', some (self, b0)) →
        bmp180_get_last_errno b0 = 0)
    ∧ (host tr (tmpWrite bmp) = 0 →
        bmp180_get_last_errno (bmp180_temperature lb host tr bmp).bmp = 0)
    ∧ (host tr (tmpWrite bmp) = 0 →
        host (bmp180_read_raw_temperature host tr bmp).trace (preWrite bmp (bmp.oss % 256)) = 0 →
        bmp180_get_last_errno (bmp180_pressure lb host tr bmp).bmp = 0
        ∧ bmp180_get_last_errno (bmp180_altitude lb host tr bmp).bmp = 0)
    ∧ (host tr (tmpWrite bmp) < 0 →
        bmp180_get_last_errno (bmp180_temperature lb host tr bmp).bmp ≠ 0
        ∧ bmp180_get_last_errno (bmp180_pressure lb host tr bmp).bmp ≠ 0
        ∧ bmp180_get_last_errno (bmp180_altitude lb host tr bmp).bmp ≠ 0)
    ∧ (host tr (tmpWrite bmp) = 0 →
        host (bmp180_read_raw_temperature host tr bmp).trace (preWrite bmp (bmp.oss % 256)) < 0 →
        bmp180_get_last_errno (bmp180_pressure lb host tr bmp).bmp ≠ 0
        ∧ bmp180_get_last_errno (bmp180_altitude lb host tr bmp).bmp ≠ 0) := by
  refine ⟨?_, ?_, ?_, ?_, ?_⟩
  · intro h
    exact (init_some_error_oss host tr fresh address path tr' self b0 h).1
  · intro h
    rw [(temperature_of_write_ok lb host tr bmp h).2]
    rfl
  · intro h1 h2
    rw [(altitude_bmp_trace lb host tr bmp).1, (pressure_of_writes_ok lb host tr bmp h1 h2).2]
    exact ⟨rfl, rfl⟩
  · intro h
    rw [(altitude_bmp_trace lb host tr bmp).1, temperature_of_write_neg lb host tr bmp h,
      pressure_of_tmp_write_neg lb host tr bmp h]
    simp only [bmp180_get_last_errno, ne_eq, and_self]
    omega
  · intro h1 h2
    rw [(altitude_bmp_trace lb host tr bmp).1]
    simp only [bmp180_get_last_errno, (pressure_of_pre_write_neg lb host tr bmp h1 h2).2.1,
      ne_eq, and_self]
    omega

theorem last_errno_after_calls_witness :
    bmp180_get_last_errno faultedBmp = 5
    ∧ bmp180_get_last_errno (bmp180_temperature 32 datasheetHost [] faultedBmp).bmp = 0
    ∧ bmp180_get_last_errno (bmp180_pressure 32 (constHost (-5)) [] datasheetBmp).bmp ≠ 0 :=
  ⟨rfl,
    (last_errno_after_calls 32 datasheetHost [] faultedBmp datasheetBmp 0x77 devicePath []
      0 datasheetBmp).2.1 rfl,
    ((last_errno_after_calls 32 (constHost (-5)) [] datasheetBmp datasheetBmp 0x77 devicePath
      [] 0 datasheetBmp).2.2.2.1 (by decide)).2.1⟩

/-! ## C12: a fault does not outlive the next acquisition -/

/-- The raw temperature read does not depend on the errno recorded before it. -/
theorem raw_temperature_error_irrelevant (host : Host) (tr : List Op) (bmp : bmp180_t)
    (e : Int) :
    bmp180_read_raw_temperature host tr { bmp with error := e }
      = bmp180_read_raw_temperature host tr bmp := rfl

/-- The outcome of `bmp180_temperature` does not depend on the errno recorded before. -/
theorem temperature_error_irrelevant (lb : Nat) (host : Host) (tr : List Op) (bmp : bmp180_t)
    (e : Int) :
    bmp180_temperature lb host tr { bmp with error := e } = bmp180_temperature lb host tr bmp :=
  rfl

/-- The outcome of `bmp180_pressure` does not depend on the errno recorded before. -/
theorem pressure_error_irrelevant (lb : Nat) (host : Host) (tr : List Op) (bmp : bmp180_t)
    (e : Int) :
    bmp180_pressure lb host tr { bmp with error := e } = bmp180_pressure lb host tr bmp :=
  rfl

/-- The outcome of `bmp180_altitude` does not depend on the errno recorded before. -/
theorem altitude_error_irrelevant (lb : Nat) (host : Host) (tr : List Op) (bmp : bmp180_t)
    (e : Int) :
    bmp180_altitude lb host tr { bmp with error := e } = bmp180_altitude lb host tr bmp :=
  rfl

/-- C12 (as amended). A fault is not kept: the outcome of `bmp180_temperature`,
`bmp180_pressure` and `bmp180_altitude` (returned value, recorded errno, bus calls)
does not depend on the errno recorded before the call, and a call whose command writes
succeed records errno 0 and returns the compensation of its raw readings, for
`bmp180_temperature` and `bmp180_altitude` never the sentinel, also on an instance that
was faulted before. -/
theorem acquisition_forgets_fault (lb : Nat) (host : Host) (tr : List Op) (bmp : bmp180_t)
    (e : Int)
    (h1 : host tr (tmpWrite bmp) = 0)
    (h2 : host (bmp180_read_raw_temperature host tr bmp).trace
      (preWrite bmp (bmp.oss % 256)) = 0) :
    bmp180_temperature lb host tr { bmp with error := e } = bmp180_temperature lb host tr bmp
    ∧ bmp180_pressure lb host tr { bmp with error := e } = bmp180_pressure lb host tr bmp
    ∧ bmp180_altitude lb host tr { bmp with error := e } = bmp180_altitude lb host tr bmp
    ∧ bmp180_get_last_errno (bmp180_temperature lb host tr { bmp with error := e }).bmp = 0
    ∧ (bmp180_temperature lb host tr { bmp with error := e }).ret
        = bmp180_temperature_compensate lb bmp (bmp180_read_raw_temperature host tr bmp).val
    ∧ (bmp180_temperature lb host tr { bmp with error := e }).ret ≠ some CFloat.negFltMax
    ∧ bmp180_get_last_errno (bmp180_pressure lb host tr { bmp with error := e }).bmp = 0
    ∧ (bmp180_pressure lb host tr { bmp with error := e }).ret
        = (bmp180_read_raw_pressure host (bmp180_read_raw_temperature host tr bmp).trace
            { bmp with error := 0 } (bmp.oss % 256)).ret.bind
            (bmp180_pressure_compensate lb bmp (bmp180_read_raw_temperature host tr bmp).val)
    ∧ bmp180_get_last_errno (bmp180_altitude lb host tr { bmp with error := e }).bmp = 0
    ∧ (bmp180_altitude lb host tr { bmp with error := e }).ret ≠ some CFloat.negFltMax := by
  have ht := temperature_of_write_ok lb host tr bmp h1
  have hp := pressure_of_writes_ok lb host tr bmp h1 h2
  rw [temperature_error_irrelevant, pressure_error_irrelevant, altitude_error_irrelevant]
  refine ⟨rfl, rfl, rfl, ?_, ht.1, ?_, ?_, hp.1, ?_, ?_⟩
  · rw [ht.2]; rfl
  · rw [ht.1]
    simp only [bmp180_temperature_compensate, bind, Option.bind]
    cases bmp180_B5 lb bmp (bmp180_read_raw_temperature host tr bmp).val with
    | none => simp
    | some B5 => simp [pure]
  · rw [hp.2]; rfl
  · rw [(altitude_bmp_trace lb host tr bmp).1, hp.2]; rfl
  · have he : (bmp180_pressure lb host tr bmp).bmp.error = 0 := by rw [hp.2]
    simp only [bmp180_altitude, he, ne_eq, not_true_eq_false, if_false]
    cases (bmp180_pressure lb host tr bmp).ret with
    | none => simp
    | some p => simp

theorem acquisition_forgets_fault_witness :
    bmp180_get_last_errno faultedBmp = 5
    ∧ bmp180_get_last_errno (bmp180_temperature 32 datasheetHost [] faultedBmp).bmp = 0
    ∧ (bmp180_temperature 32 datasheetHost [] faultedBmp).ret ≠ some CFloat.negFltMax :=
  ⟨rfl,
    (acquisition_forgets_fault 32 datasheetHost [] datasheetBmp 5 rfl rfl).2.2.2.1,
    (acquisition_forgets_fault 32 datasheetHost [] datasheetBmp 5 rfl rfl).2.2.2.2.2.1⟩

/-- C12 fails as stated on a bus that faults once: the first `bmp180_temperature`
returns the sentinel with errno 5; the next one, with no clear and no re-initialisation
between them, returns 150 tenths and leaves errno 0; a `bmp180_pressure` and a
`bmp180_altitude` made instead return 69964 Pa and its altitude with errno 0. -/
theorem fault_cleared_by_next_call :
    (bmp180_temperature 32 failFirstHost [] datasheetBmp).ret = some CFloat.negFltMax
    ∧ bmp180_get_last_errno (bmp180_temperature 32 failFirstHost [] datasheetBmp).bmp = 5
    ∧ (bmp180_temperature 32 failFirstHost
        (bmp180_temperature 32 failFirstHost [] datasheetBmp).trace
        (bmp180_temperature 32 failFirstHost [] datasheetBmp).bmp).ret
          = some (CFloat.tenths 150)
    ∧ bmp180_get_last_errno (bmp180_temperature 32 failFirstHost
        (bmp180_temperature 32 failFirstHost [] datasheetBmp).trace
        (bmp180_temperature 32 failFirstHost [] datasheetBmp).bmp).bmp = 0
    ∧ (bmp180_pressure 32 failFirstHost
        (bmp180_temperature 32 failFirstHost [] datasheetBmp).trace
        (bmp180_temperature 32 failFirstHost [] datasheetBmp).bmp).ret = some 69964
    ∧ bmp180_get_last_errno (bmp180_pressure 32 failFirstHost
        (bmp180_temperature 32 failFirstHost [] datasheetBmp).trace
        (bmp180_temperature 32 failFirstHost [] datasheetBmp).bmp).bmp = 0
    ∧ (bmp180_altitude 32 failFirstHost
        (bmp180_temperature 32 failFirstHost [] datasheetBmp).trace
        (bmp180_temperature 32 failFirstHost [] datasheetBmp).bmp).ret
          = some (CFloat.altitude 69964) := by
  decide

/-! ## C13: frame of the acquisition calls and determinism -/

/-- The raw temperature read changes no field but `error`. -/
theorem raw_temperature_frame (host : Host) (tr : List Op) (bmp : bmp180_t) :
    (bmp180_read_raw_temperature host tr bmp).bmp
      = { bmp with error := (bmp180_read_raw_temperature host tr bmp).bmp.error } := by
  by_cases h : host tr (tmpWrite bmp) < 0
  · rw [raw_temperature_of_neg host tr bmp h]
  · rw [(raw_temperature_of_nonneg host tr bmp h).1]

/-- The raw pressure read changes no field but `error`. -/
theorem raw_pressure_frame (host : Host) (tr : List Op) (bmp : bmp180_t) (oss : Int) :
    (bmp180_read_raw_pressure host tr bmp oss).bmp
      = { bmp with error := (bmp180_read_raw_pressure host tr bmp oss).bmp.error } := by
  by_cases h : host tr (preWrite bmp oss) < 0
  · rw [raw_pressure_of_neg host tr bmp oss h]
  · rw [(raw_pressure_of_nonneg host tr bmp oss h).1]

/-- Function `bmp180_temperature` changes no field but `error`. -/
theorem temperature_frame (lb : Nat) (host : Host) (tr : List Op) (bmp : bmp180_t) :
    (bmp180_temperature lb host tr bmp).bmp
      = { bmp with error := (bmp180_temperature lb host tr bmp).bmp.error } := by
  have e : (bmp180_temperature lb host tr bmp).bmp
      = (bmp180_read_raw_temperature host tr bmp).bmp := by
    simp only [bmp180_temperature]
    split_ifs <;> rfl
  rw [e]
  exact raw_temperature_frame host tr bmp

/-- Changing no field but `error` composes. -/
theorem frame_trans (a b c : bmp180_t) (h1 : a = { b with error := a.error })
    (h2 : b = { c with error := b.error }) : a = { c with error := a.error } := by
  rw [h1, h2]

/-- The instance `bmp180_pressure` leaves is the one left by one of its two raw reads. -/
theorem pressure_bmp_cases (lb : Nat) (host : Host) (tr : List Op) (bmp : bmp180_t) :
    (bmp180_pressure lb host tr bmp).bmp = (bmp180_read_raw_temperature host tr bmp).bmp
    ∨ (bmp180_pressure lb host tr bmp).bmp
        = (bmp180_read_raw_pressure host (bmp180_read_raw_temperature host tr bmp).trace
            (bmp180_read_raw_temperature host tr bmp).bmp
            ((bmp180_read_raw_temperature host tr bmp).bmp.oss % 256)).bmp := by
  simp only [bmp180_pressure]
  split_ifs with h1 h2
  · exact Or.inl rfl
  all_goals
    right
    cases (bmp180_read_raw_pressure host (bmp180_read_raw_temperature host tr bmp).trace
        (bmp180_read_raw_temperature host tr bmp).bmp
        ((bmp180_read_raw_temperature host tr bmp).bmp.oss % 256)).ret <;> rfl

/-- Function `bmp180_pressure` changes no field but `error`. -/
theorem pressure_frame (lb : Nat) (host : Host) (tr : List Op) (bmp : bmp180_t) :
    (bmp180_pressure lb host tr bmp).bmp
      = { bmp with error := (bmp180_pressure lb host tr bmp).bmp.error } := by
  have ht := raw_temperature_frame host tr bmp
  rcases pressure_bmp_cases lb host tr bmp with h | h
  · rw [h]; exact ht
  · rw [h]
    exact frame_trans _ _ _ (raw_pressure_frame host _ _ _) ht

/-- Function `bmp180_altitude` changes no field but `error`. -/
theorem altitude_frame (lb : Nat) (host : Host) (tr : List Op) (bmp : bmp180_t) :
    (bmp180_altitude lb host tr bmp).bmp
      = { bmp with error := (bmp180_altitude lb host tr bmp).bmp.error } := by
  rw [(altitude_bmp_trace lb host tr bmp).1]
  exact pressure_frame lb host tr bmp

/-- The temperature compensation depends on the instance through its coefficients
only. -/
theorem temperature_compensate_congr (lb : Nat) (a b : bmp180_t) (UT : Int)
    (h : sameCalibration a b) :
    bmp180_temperature_compensate lb a UT = bmp180_temperature_compensate lb b UT := by
  obtain ⟨_, _, _, _, h5, h6, _, _, _, h10, h11, _⟩ := h
  simp only [bmp180_temperature_compensate, bmp180_B5, bmp180_X1_md, bmp180_X1, h5, h6, h10,
    h11]

/-- The pressure compensation depends on the instance through its coefficients and
its mode only. -/
theorem pressure_compensate_congr (lb : Nat) (a b : bmp180_t) (UT UP : Int)
    (h : sameCalibration a b) :
    bmp180_pressure_compensate lb a UT UP = bmp180_pressure_compensate lb b UT UP := by
  obtain ⟨h1, h2, h3, h4, h5, h6, h7, h8, _, h10, h11, h12⟩ := h
  simp only [bmp180_pressure_compensate, bmp180_pressure_B4_B7, bmp180_B5, bmp180_X1_md,
    bmp180_X1, h1, h2, h3, h4, h5, h6, h7, h8, h10, h11, h12]

/-- With both command writes answered by `0`, `bmp180_altitude` returns the altitude of
the pressure that `bmp180_pressure` returns. -/
theorem altitude_of_writes_ok (lb : Nat) (host : Host) (tr : List Op) (bmp : bmp180_t)
    (h1 : host tr (tmpWrite bmp) = 0)
    (h2 : host (bmp180_read_raw_temperature host tr bmp).trace
      (preWrite bmp (bmp.oss % 256)) = 0) :
    (bmp180_altitude lb host tr bmp).ret
      = (bmp180_pressure lb host tr bmp).ret.map CFloat.altitude := by
  have he : (bmp180_pressure lb host tr bmp).bmp.error = 0 := by
    rw [(pressure_of_writes_ok lb host tr bmp h1 h2).2]
  simp only [bmp180_altitude, he, ne_eq, not_true_eq_false, if_false]
  cases (bmp180_pressure lb host tr bmp).ret <;> rfl

/-- C13. `bmp180_temperature`, `bmp180_pressure` and `bmp180_altitude` change no field
of the instance other than the recorded error, for every bus behaviour; and two runs on
instances with equal coefficients and mode, with successful command writes and equal
raw readings `UT` and `UP`, return equal results. -/
theorem acquisition_frame_and_determinism (lb : Nat) (host : Host) (tr : List Op)
    (bmp : bmp180_t) (host' : Host) (tr' : List Op) (bmp' : bmp180_t) :
    (bmp180_temperature lb host tr bmp).bmp
        = { bmp with error := (bmp180_temperature lb host tr bmp).bmp.error }
    ∧ (bmp180_pressure lb host tr bmp).bmp
        = { bmp with error := (bmp180_pressure lb host tr bmp).bmp.error }
    ∧ (bmp180_altitude lb host tr bmp).bmp
        = { bmp with error := (bmp180_altitude lb host tr bmp).bmp.error }
    ∧ (sameCalibration bmp bmp' →
        host tr (tmpWrite bmp) = 0 → host' tr' (tmpWrite bmp') = 0 →
        (bmp180_read_raw_temperature host tr bmp).val
          = (bmp180_read_raw_temperature host' tr' bmp').val →
        (bmp180_temperature lb host tr bmp).ret = (bmp180_temperature lb host' tr' bmp').ret)
    ∧ (sameCalibration bmp bmp' →
        host tr (tmpWrite bmp) = 0 → host' tr' (tmpWrite bmp') = 0 →
        host (bmp180_read_raw_temperature host tr bmp).trace
          (preWrite bmp (bmp.oss % 256)) = 0 →
        host' (bmp180_read_raw_temperature host' tr' bmp').trace
          (preWrite bmp' (bmp'.oss % 256)) = 0 →
        (bmp180_read_raw_temperature host tr bmp).val
          = (bmp180_read_raw_temperature host' tr' bmp').val →
        (bmp180_read_raw_pressure host (bmp180_read_raw_temperature host tr bmp).trace
            { bmp with error := 0 } (bmp.oss % 256)).ret
          = (bmp180_read_raw_pressure host' (bmp180_read_raw_temperature host' tr' bmp').trace
            { bmp' with error := 0 } (bmp'.oss % 256)).ret →
        (bmp180_pressure lb host tr bmp).ret = (bmp180_pressure lb host' tr' bmp').ret
        ∧ (bmp180_altitude lb host tr bmp).ret = (bmp180_altitude lb host' tr' bmp').ret) := by
  refine ⟨temperature_frame lb host tr bmp, pressure_frame lb host tr bmp,
    altitude_frame lb host tr bmp, ?_, ?_⟩
  · intro hc h1 h1' hUT
    rw [(temperature_of_write_ok lb host tr bmp h1).1,
      (temperature_of_write_ok lb host' tr' bmp' h1').1, hUT]
    exact temperature_compensate_congr lb bmp bmp' _ hc
  · intro hc h1 h1' h2 h2' hUT hUP
    have hp : (bmp180_pressure lb host tr bmp).ret
        = (bmp180_pressure lb host' tr' bmp').ret := by
      rw [(pressure_of_writes_ok lb host tr bmp h1 h2).1,
        (pressure_of_writes_ok lb host' tr' bmp' h1' h2').1, hUT, hUP]
      congr 1
      funext UP
      exact pressure_compensate_congr lb bmp bmp' _ UP hc
    refine ⟨hp, ?_⟩
    rw [altitude_of_writes_ok lb host tr bmp h1 h2,
      altitude_of_writes_ok lb host' tr' bmp' h1' h2', hp]

theorem acquisition_frame_and_determinism_witness :
    sameCalibration datasheetBmp faultedBmp
    ∧ (bmp180_temperature 32 datasheetHost [] datasheetBmp).ret
        = (bmp180_temperature 32 datasheetHost [Op.usleep 1] faultedBmp).ret
    ∧ (bmp180_pressure 64 datasheetHost [] datasheetBmp).ret
        = (bmp180_pressure 64 datasheetHost [Op.usleep 1] faultedBmp).ret :=
  ⟨by decide,
    (acquisition_frame_and_determinism 32 datasheetHost [] datasheetBmp datasheetHost
      [Op.usleep 1] faultedBmp).2.2.2.1 (by decide) rfl rfl (by decide),
    ((acquisition_frame_and_determinism 64 datasheetHost [] datasheetBmp datasheetHost
      [Op.usleep 1] faultedBmp).2.2.2.2 (by decide) rfl rfl rfl rfl (by decide)
      (by decide)).1⟩

/-! ## C14: the oversampling mode along a sequence of calls -/

/-- One call leaves the mode of the instance unless it is `bmp180_set_oss`, which stores
its argument. -/
theorem stepCall_oss (lb : Nat) (host : Host) (s : List Op × bmp180_t) (c : Call) :
    (stepCall lb host s c).2.oss
      = (match c with
          | Call.set_oss oss => oss
          | _ => s.2.oss) := by
  cases c with
  | set_oss oss => rfl
  | temperature =>
    show (bmp180_temperature lb host s.1 s.2).bmp.oss = s.2.oss
    rw [temperature_frame]
  | pressure =>
    show (bmp180_pressure lb host s.1 s.2).bmp.oss = s.2.oss
    rw [pressure_frame]
  | altitude =>
    show (bmp180_altitude lb host s.1 s.2).bmp.oss = s.2.oss
    rw [altitude_frame]

/-- The mode after a sequence of calls is the argument of its last `bmp180_set_oss`. -/
theorem runCalls_oss (lb : Nat) (host : Host) (cs : List Call) :
    ∀ s : List Op × bmp180_t, (runCalls lb host s cs).2.oss = lastOss s.2.oss cs := by
  induction cs with
  | nil => intro s; rfl
  | cons c cs ih =>
    intro s
    have h := ih (stepCall lb host s c)
    rw [stepCall_oss] at h
    simp only [runCalls, lastOss, List.foldl_cons] at h ⊢
    rw [h]

/-- A mode in `{0,1,2,3}` stays there along calls whose `bmp180_set_oss` arguments are
in `{0,1,2,3}`. -/
theorem lastOss_valid (cs : List Call) :
    ∀ m : Int, (m = 0 ∨ m = 1 ∨ m = 2 ∨ m = 3) → ossArgsValid cs →
      lastOss m cs = 0 ∨ lastOss m cs = 1 ∨ lastOss m cs = 2 ∨ lastOss m cs = 3 := by
  induction cs with
  | nil => intro m hm _; exact hm
  | cons c cs ih =>
    intro m hm hv
    have hv' : ossArgsValid cs := fun c' hc' => hv c' (List.mem_cons_of_mem c hc')
    simp only [lastOss, List.foldl_cons]
    cases c with
    | set_oss oss =>
      have h := hv (Call.set_oss oss) (List.mem_cons_self _ _)
      simp only [ossArgValid, decide_eq_true_eq] at h
      exact ih oss (by omega) hv'
    | temperature => exact ih m hm hv'
    | pressure => exact ih m hm hv'
    | altitude => exact ih m hm hv'

/-- C14 (as amended). In every state reached from a successful `bmp180_init` by a
sequence of `bmp180_set_oss`, `bmp180_temperature`, `bmp180_pressure` and
`bmp180_altitude` calls, the mode of the instance is the argument of the last
`bmp180_set_oss` of the sequence (0, the default, when there is none); it is a value in
`{0,1,2,3}` whenever every `bmp180_set_oss` argument of the sequence is. -/
theorem oss_along_calls (lb : Nat) (host : Host) (tr : List Op) (fresh : bmp180_t)
    (address : Int) (path : String) (tr0 : List Op) (self : Int) (b0 : bmp180_t)
    (cs : List Call)
    (hinit : bmp180_init host tr fresh address path = (tr0, some (self, b0))) :
    (runCalls lb host (tr0, b0) cs).2.oss = lastOss 0 cs
    ∧ (ossArgsValid cs →
        (runCalls lb host (tr0, b0) cs).2.oss = 0 ∨ (runCalls lb host (tr0, b0) cs).2.oss = 1
        ∨ (runCalls lb host (tr0, b0) cs).2.oss = 2
        ∨ (runCalls lb host (tr0, b0) cs).2.oss = 3) := by
  have h0 := (init_some_error_oss host tr fresh address path tr0 self b0 hinit).2
  have h := runCalls_oss lb host cs (tr0, b0)
  simp only [h0] at h
  refine ⟨h, fun hv => ?_⟩
  rw [h]
  exact lastOss_valid cs 0 (Or.inl rfl) hv

theorem oss_along_calls_witness :
    bmp180_init workingHost [] datasheetBmp 0x77 devicePath
        = (workingTrace, some (0x1000, workingInstance))
    ∧ (runCalls 32 workingHost (workingTrace, workingInstance)
        [Call.temperature, Call.set_oss 2, Call.pressure, Call.altitude]).2.oss = 2 :=
  ⟨by decide,
    (oss_along_calls 32 workingHost [] datasheetBmp 0x77 devicePath workingTrace 0x1000
      workingInstance [Call.temperature, Call.set_oss 2, Call.pressure, Call.altitude]
      (by decide)).1⟩

/-- C14 fails as stated: after a successful `bmp180_init`, the call
`bmp180_set_oss(bmp, 7)` leaves the mode 7 on the instance, a value outside
`{0,1,2,3}`, and a `bmp180_temperature` call after it keeps it. -/
theorem set_oss_stores_any_mode :
    bmp180_init workingHost [] datasheetBmp 0x77 devicePath
        = (workingTrace, some (0x1000, workingInstance))
    ∧ (runCalls 32 workingHost (workingTrace, workingInstance) [Call.set_oss 7]).2.oss = 7
    ∧ (runCalls 32 workingHost (workingTrace, workingInstance)
        [Call.set_oss 7, Call.temperature]).2.oss = 7
    ∧ ¬ ((7 : Int) = 0 ∨ (7 : Int) = 1 ∨ (7 : Int) = 2 ∨ (7 : Int) = 3) := by
  decide

/-! ## C15: closing an instance twice -/

/-- Function `bmp180_close` on a null pointer makes no call and changes nothing. -/
theorem close_null (tr : List Op) (heap : Heap) :
    bmp180_close tr heap 0 = { heap := heap, trace := tr, defined := true } := by
  simp only [bmp180_close, if_true]

/-- The first `bmp180_close` of a live instance closes the bus handle, frees the
device path and the structure, and leaves the block dead. -/
theorem close_live (tr : List Op) (heap : Heap) (p : Int) (bmp : bmp180_t) (hp : p ≠ 0)
    (hl : heap p = some bmp) :
    (bmp180_close tr heap p).trace
        = tr ++ [Op.close_file bmp.file, Op.free bmp.i2c_device, Op.free p]
    ∧ (bmp180_close tr heap p).defined = true
    ∧ (bmp180_close tr heap p).heap p = none := by
  simp only [bmp180_close, if_neg hp, hl, List.append_assoc, List.singleton_append,
    List.cons_append, List.nil_append, if_true, and_self]

/-- A second `bmp180_close` with the same pointer reads the freed structure: the call
is outside defined behaviour, for every heap and trace. -/
theorem close_twice_undefined (tr : List Op) (heap : Heap) (p : Int) (bmp : bmp180_t)
    (hp : p ≠ 0) (hl : heap p = some bmp) :
    (bmp180_close (bmp180_close tr heap p).trace (bmp180_close tr heap p).heap p).defined
      = false := by
  have h := (close_live tr heap p bmp hp hl).2.2
  generalize bmp180_close tr heap p = c at h ⊢
  simp only [bmp180_close, if_neg hp, h]

/-- C15 (the code at the failing input). After `bmp180_init` on a working host, the
first `bmp180_close(bmp)` closes handle 3 and frees the path block `0x2000` and the
structure `0x1000`; the pointer of the caller is still `0x1000`, so a second
`bmp180_close(bmp)` passes the null test and reads the freed structure: it is not a
no-op but a call without defined behaviour.  A close of the null pointer does nothing. -/
theorem second_close_reads_freed_instance :
    (bmp180_close workingTrace workingHeap 0x1000).trace
        = workingTrace ++ [Op.close_file 3, Op.free 0x2000, Op.free 0x1000]
    ∧ (bmp180_close workingTrace workingHeap 0x1000).defined = true
    ∧ (bmp180_close workingTrace workingHeap 0x1000).heap 0x1000 = none
    ∧ (bmp180_close (bmp180_close workingTrace workingHeap 0x1000).trace
        (bmp180_close workingTrace workingHeap 0x1000).heap 0x1000).defined = false
    ∧ (bmp180_close workingTrace workingHeap 0).trace = workingTrace
    ∧ (bmp180_close workingTrace workingHeap 0).defined = true := by
  decide

/-! ## C16: the temperature compensation against the exact formula -/

/-- For a width of at least 32 bits, half the range is at least `2^31` and the range is
twice its half. -/
theorem pow_width_facts (lb : Nat) (h : 32 ≤ lb) :
    (2147483648 : Int) ≤ 2 ^ (lb - 1) ∧ (2 : Int) ^ lb = 2 * 2 ^ (lb - 1) := by
  obtain ⟨k, rfl⟩ : ∃ k, lb = k + 32 := ⟨lb - 32, by omega⟩
  have e : k + 32 - 1 = k + 31 := by omega
  rw [e]
  have hk : (1 : Int) ≤ 2 ^ k := one_le_pow₀ (by norm_num)
  constructor
  · rw [pow_add]; norm_num; nlinarith
  · rw [pow_add, pow_add]; norm_num; ring

/-- A representable value is left unchanged by the reduction to `w` bits. -/
theorem wrapSigned_of_fits (w : Nat) (x : Int) (hw : 0 < w) (h : fitsSigned w x) :
    wrapSigned w x = x := by
  obtain ⟨k, rfl⟩ : ∃ k, w = k + 1 := ⟨w - 1, by omega⟩
  simp only [fitsSigned, Nat.add_sub_cancel] at h
  have e : (2 : Int) ^ (k + 1) = 2 * 2 ^ k := by rw [pow_succ]; ring
  simp only [wrapSigned, Nat.add_sub_cancel, e]
  rw [Int.emod_eq_of_lt (by omega) (by omega)]
  omega

/-- The quotient truncated toward zero is no larger in absolute value than the
dividend. -/
theorem tdiv_bounds (a b : Int) : -|a| ≤ Int.tdiv a b ∧ Int.tdiv a b ≤ |a| := by
  have h := Int.natAbs_tdiv a b
  have h2 : (a.natAbs).div (b.natAbs) ≤ a.natAbs := Nat.div_le_self _ _
  rw [← h] at h2
  have h3 : ((Int.tdiv a b).natAbs : Int) ≤ (a.natAbs : Int) := by exact_mod_cast h2
  rw [Int.natCast_natAbs, Int.natCast_natAbs] at h3
  exact abs_le.mp h3

/-- When the product `(UT - AC6) * AC5` is representable in a `long` of at least 32
bits and `MC`, `MD` are 16-bit values, every step of the temperature arithmetic is
exact: the code computes the reference `X1`, divisor, `B5` and tenths. -/
theorem temperature_exact (lb : Nat) (bmp : bmp180_t) (UT : Int) (hlb : 32 ≤ lb)
    (hmc : -32768 ≤ bmp.mc ∧ bmp.mc ≤ 32767) (hmd : -32768 ≤ bmp.md ∧ bmp.md ≤ 32767)
    (hP : fitsSigned lb ((UT - bmp.ac6) * bmp.ac5)) :
    bmp180_X1 lb bmp UT = refX1 bmp UT
    ∧ bmp180_X1_md lb bmp UT = refX1 bmp UT + bmp.md
    ∧ (refX1 bmp UT + bmp.md ≠ 0 →
        bmp180_B5 lb bmp UT = some (refB5 bmp UT)
        ∧ bmp180_temperature_compensate lb bmp UT = some (CFloat.tenths (refTenths bmp UT))
        ∧ fitsSigned 32 (refX2 bmp UT)) := by
  obtain ⟨hH, _⟩ := pow_width_facts lb hlb
  have hw : 0 < lb := by omega
  have hX1 : bmp180_X1 lb bmp UT = refX1 bmp UT := by
    simp only [bmp180_X1, wrapSigned_of_fits lb _ hw hP, sar, refX1]
  have hx : refX1 bmp UT = ((UT - bmp.ac6) * bmp.ac5) / 32768 := by
    simp only [refX1]; norm_num
  have hfd : fitsSigned lb (refX1 bmp UT + bmp.md) := by
    rw [hx]
    simp only [fitsSigned] at hP ⊢
    generalize (2 : Int) ^ (lb - 1) = H at hH hP ⊢
    generalize (UT - bmp.ac6) * bmp.ac5 = P at hP ⊢
    omega
  have hd : bmp180_X1_md lb bmp UT = refX1 bmp UT + bmp.md := by
    simp only [bmp180_X1_md, hX1, wrapSigned_of_fits lb _ hw hfd]
  refine ⟨hX1, hd, fun hne => ?_⟩
  have hN : wrapSigned 32 (bmp.mc * 2 ^ 11) = bmp.mc * 2 ^ 11 := by
    apply wrapSigned_of_fits 32 _ (by decide)
    simp only [fitsSigned]
    norm_num
    omega
  have hb := tdiv_bounds (bmp.mc * 2 ^ 11) (refX1 bmp UT + bmp.md)
  have habs : |bmp.mc * 2 ^ 11| ≤ 67108864 := by
    rw [abs_le]; norm_num; omega
  have hX2 : -67108864 ≤ refX2 bmp UT ∧ refX2 bmp UT ≤ 67108864 := by
    simp only [refX2]; omega
  have hf2 : fitsSigned lb (refX2 bmp UT) := by
    simp only [fitsSigned]
    generalize (2 : Int) ^ (lb - 1) = H at hH ⊢
    omega
  have hfB5 : fitsSigned lb (refX1 bmp UT + refX2 bmp UT) := by
    rw [hx]
    simp only [fitsSigned] at hP ⊢
    generalize (2 : Int) ^ (lb - 1) = H at hH hP ⊢
    generalize (UT - bmp.ac6) * bmp.ac5 = P at hP ⊢
    omega
  have hB5 : bmp180_B5 lb bmp UT = some (refB5 bmp UT) := by
    simp only [bmp180_B5, hd, cdiv, if_neg hne, hN, hX1, bind, Option.bind, pure]
    rw [show Int.tdiv (bmp.mc * 2 ^ 11) (refX1 bmp UT + bmp.md) = refX2 bmp UT from rfl,
      wrapSigned_of_fits lb _ hw hf2, wrapSigned_of_fits lb _ hw hfB5]
    rfl
  have hf8 : fitsSigned lb (refB5 bmp UT + 8) := by
    simp only [refB5]
    rw [hx]
    simp only [fitsSigned] at hP ⊢
    generalize (2 : Int) ^ (lb - 1) = H at hH hP ⊢
    generalize (UT - bmp.ac6) * bmp.ac5 = P at hP ⊢
    omega
  refine ⟨hB5, ?_, ?_⟩
  · simp only [bmp180_temperature_compensate, hB5, bind, Option.bind, pure,
      wrapSigned_of_fits lb _ hw hf8, sar, refTenths]
    norm_num
  · simp only [fitsSigned]
    norm_num
    omega

/-- The raw temperature after a command write that did not fail is the assembled word,
a value in `[0, 65535]`. -/
theorem raw_temperature_val_of_nonneg (host : Host) (tr : List Op) (bmp : bmp180_t)
    (h : ¬ host tr (tmpWrite bmp) < 0) :
    (bmp180_read_raw_temperature host tr bmp).val
        = assembled (host (tr ++ [tmpWrite bmp, Op.usleep BMP180_TMP_READ_WAIT_US])
            (Op.i2c_smbus_read_word_data bmp.file BMP180_REG_TMP))
    ∧ 0 ≤ (bmp180_read_raw_temperature host tr bmp).val
    ∧ (bmp180_read_raw_temperature host tr bmp).val ≤ 65535 := by
  have ev : (bmp180_read_raw_temperature host tr bmp).val
      = assembled (host (tr ++ [tmpWrite bmp, Op.usleep BMP180_TMP_READ_WAIT_US])
          (Op.i2c_smbus_read_word_data bmp.file BMP180_REG_TMP)) := by
    unfold tmpWrite at h
    simp only [bmp180_read_raw_temperature, if_neg h, swap_masked, assembled, tmpWrite,
      List.append_assoc, List.singleton_append, List.cons_append, List.nil_append]
  refine ⟨ev, ?_, ?_⟩
  · rw [ev]; unfold assembled; omega
  · rw [ev]; unfold assembled; omega

/-- A `long` of at least 64 bits holds the product `(UT - AC6) * AC5` of 16-bit
values. -/
theorem product_fits_64 (lb : Nat) (bmp : bmp180_t) (UT : Int) (hlb : 64 ≤ lb)
    (hUT : 0 ≤ UT ∧ UT ≤ 65535) (h5 : 0 ≤ bmp.ac5 ∧ bmp.ac5 ≤ 65535)
    (h6 : 0 ≤ bmp.ac6 ∧ bmp.ac6 ≤ 65535) :
    fitsSigned lb ((UT - bmp.ac6) * bmp.ac5) := by
  obtain ⟨k, rfl⟩ : ∃ k, lb = k + 64 := ⟨lb - 64, by omega⟩
  have e : k + 64 - 1 = k + 63 := by omega
  have hk : (1 : Int) ≤ 2 ^ k := one_le_pow₀ (by norm_num)
  have hH : (9223372036854775808 : Int) ≤ 2 ^ (k + 63) := by
    rw [pow_add]; norm_num; nlinarith
  have hp1 : (UT - bmp.ac6) * bmp.ac5 ≤ 65535 * 65535 := by nlinarith
  have hp2 : -(65535 * 65535) ≤ (UT - bmp.ac6) * bmp.ac5 := by nlinarith
  simp only [fitsSigned, e]
  constructor <;> omega

/-- C16 (as amended). With a successful command write, `MC` and `MD` in the signed
16-bit range, `X1 + MD ≠ 0`, and the product `(UT - AC6) * AC5` representable in the
`long` of the host (at least 32 bits wide; always the case for a `long` of 64 bits and
`AC5`, `AC6` in `[0, 65535]`), `bmp180_temperature` returns the tenths
`(B5 + 8) >> 4` of the reference formula: `X1 = floor(((UT - AC6) * AC5) / 2^15)`,
`X2 = (MC * 2^11) / (X1 + MD)` truncated toward zero, `B5 = X1 + X2`, `>> 4` the floor
division by 16.  For the datasheet inputs `X2 = -2343` and `B5 = 2400`. -/
theorem temperature_reference_formula (lb : Nat) (host : Host) (tr : List Op)
    (bmp : bmp180_t) (hlb : 32 ≤ lb)
    (hw : host tr (tmpWrite bmp) = 0)
    (hmc : -32768 ≤ bmp.mc ∧ bmp.mc ≤ 32767) (hmd : -32768 ≤ bmp.md ∧ bmp.md ≤ 32767)
    (hP : fitsSigned lb (((bmp180_read_raw_temperature host tr bmp).val - bmp.ac6) * bmp.ac5)
      ∨ (64 ≤ lb ∧ 0 ≤ bmp.ac5 ∧ bmp.ac5 ≤ 65535 ∧ 0 ≤ bmp.ac6 ∧ bmp.ac6 ≤ 65535))
    (hd : refX1 bmp (bmp180_read_raw_temperature host tr bmp).val + bmp.md ≠ 0) :
    (bmp180_temperature lb host tr bmp).ret
        = some (CFloat.tenths (refTenths bmp (bmp180_read_raw_temperature host tr bmp).val))
    ∧ bmp180_B5 lb bmp (bmp180_read_raw_temperature host tr bmp).val
        = some (refB5 bmp (bmp180_read_raw_temperature host tr bmp).val)
    ∧ refX2 datasheetBmp 27898 = -2343
    ∧ refB5 datasheetBmp 27898 = 2400
    ∧ refTenths datasheetBmp 27898 = 150 := by
  have hn : ¬ host tr (tmpWrite bmp) < 0 := by rw [hw]; decide
  have hv := raw_temperature_val_of_nonneg host tr bmp hn
  have hfit : fitsSigned lb
      (((bmp180_read_raw_temperature host tr bmp).val - bmp.ac6) * bmp.ac5) := by
    rcases hP with h | ⟨h64, h5a, h5b, h6a, h6b⟩
    · exact h
    · exact product_fits_64 lb bmp _ h64 ⟨hv.2.1, hv.2.2⟩ ⟨h5a, h5b⟩ ⟨h6a, h6b⟩
  have hx := (temperature_exact lb bmp _ hlb hmc hmd hfit).2.2 hd
  refine ⟨?_, hx.1, by decide, by decide, by decide⟩
  rw [(temperature_of_write_ok lb host tr bmp hw).1]
  exact hx.2.1

theorem temperature_reference_formula_witness :
    (bmp180_temperature 32 datasheetHost [] datasheetBmp).ret
        = some (CFloat.tenths (refTenths datasheetBmp
            (bmp180_read_raw_temperature datasheetHost [] datasheetBmp).val))
    ∧ (bmp180_temperature 64 allOnesHost [] wideBmp).ret
        = some (CFloat.tenths (refTenths wideBmp
            (bmp180_read_raw_temperature allOnesHost [] wideBmp).val)) :=
  ⟨(temperature_reference_formula 32 datasheetHost [] datasheetBmp (by decide) rfl
      (by decide) (by decide) (Or.inl (by decide)) (by decide)).1,
    (temperature_reference_formula 64 allOnesHost [] wideBmp (by decide) rfl
      (by decide) (by decide) (Or.inr (by decide)) (by decide)).1⟩

/-- C16 fails as stated on a host whose `long` has 32 bits, with `UT = 65535`,
`AC5 = 65535`, `AC6 = 0`, `MC = -8711`, `MD = 2868`: the command write succeeds and
`X1 + MD = 133936` is not zero, but the product `65535 * 65535` does not fit 32 bits;
the code returns -390 tenths where the reference formula gives 8183. -/
theorem temperature_32_bit_differs :
    allOnesHost [] (tmpWrite wideBmp) = 0
    ∧ (bmp180_read_raw_temperature allOnesHost [] wideBmp).val = 65535
    ∧ refX1 wideBmp 65535 + wideBmp.md = 133936
    ∧ refTenths wideBmp 65535 = 8183
    ∧ (bmp180_temperature 32 allOnesHost [] wideBmp).ret = some (CFloat.tenths (-390))
    ∧ ¬ fitsSigned 32 ((65535 - wideBmp.ac6) * wideBmp.ac5) := by
  decide

/-! ## C17: the width needed by the temperature path -/

/-- A signed integer of at least 33 bits holds the product `(UT - AC6) * AC5` of 16-bit
values, whose absolute value is at most `65535 * 65535`. -/
theorem product_fits_33 (lb : Nat) (bmp : bmp180_t) (UT : Int) (hlb : 33 ≤ lb)
    (hUT : 0 ≤ UT ∧ UT ≤ 65535) (h5 : 0 ≤ bmp.ac5 ∧ bmp.ac5 ≤ 65535)
    (h6 : 0 ≤ bmp.ac6 ∧ bmp.ac6 ≤ 65535) :
    -(65535 * 65535) ≤ (UT - bmp.ac6) * bmp.ac5
    ∧ (UT - bmp.ac6) * bmp.ac5 ≤ 65535 * 65535
    ∧ fitsSigned lb ((UT - bmp.ac6) * bmp.ac5) := by
  obtain ⟨k, rfl⟩ : ∃ k, lb = k + 33 := ⟨lb - 33, by omega⟩
  have e : k + 33 - 1 = k + 32 := by omega
  have hk : (1 : Int) ≤ 2 ^ k := one_le_pow₀ (by norm_num)
  have hH : (4294967296 : Int) ≤ 2 ^ (k + 32) := by
    rw [pow_add]; norm_num; nlinarith
  have hp1 : (UT - bmp.ac6) * bmp.ac5 ≤ 65535 * 65535 := by nlinarith
  have hp2 : -(65535 * 65535) ≤ (UT - bmp.ac6) * bmp.ac5 := by nlinarith
  refine ⟨hp2, hp1, ?_⟩
  simp only [fitsSigned, e]
  constructor <;> omega

/-- C17 (as amended). For `UT`, `AC5`, `AC6` in `[0, 65535]` and `MC`, `MD` in
`[-32768, 32767]`, the intermediate values `MC << 11`, `X1 + MD`, `B5` and `B5 + 8`
of the temperature computation lie in `[-2^31, 2^31 - 1]`, while the product
`(UT - AC6) * AC5` is at most `65535 * 65535` in absolute value: it lies in
`[-2^32, 2^32 - 1]` (33 bits) and need not fit 32 bits.  For `X1 + MD ≠ 0`, evaluation
with a `long` of at least 33 bits (of 64 bits in particular) gives the result of exact
integer arithmetic, and evaluation with a 32-bit `long` does whenever the product lies
in `[-2^31, 2^31 - 1]`. -/
theorem temperature_width (bmp : bmp180_t) (UT : Int)
    (hUT : 0 ≤ UT ∧ UT ≤ 65535) (h5 : 0 ≤ bmp.ac5 ∧ bmp.ac5 ≤ 65535)
    (h6 : 0 ≤ bmp.ac6 ∧ bmp.ac6 ≤ 65535)
    (hmc : -32768 ≤ bmp.mc ∧ bmp.mc ≤ 32767) (hmd : -32768 ≤ bmp.md ∧ bmp.md ≤ 32767) :
    fitsSigned 33 ((UT - bmp.ac6) * bmp.ac5)
    ∧ -(65535 * 65535) ≤ (UT - bmp.ac6) * bmp.ac5
    ∧ (UT - bmp.ac6) * bmp.ac5 ≤ 65535 * 65535
    ∧ fitsSigned 32 (bmp.mc * 2 ^ 11)
    ∧ fitsSigned 32 (refX1 bmp UT + bmp.md)
    ∧ fitsSigned 32 (refB5 bmp UT)
    ∧ fitsSigned 32 (refB5 bmp UT + 8)
    ∧ (∀ lb : Nat, 33 ≤ lb → refX1 bmp UT + bmp.md ≠ 0 →
        bmp180_temperature_compensate lb bmp UT = some (CFloat.tenths (refTenths bmp UT)))
    ∧ (refX1 bmp UT + bmp.md ≠ 0 →
        bmp180_temperature_compensate 64 bmp UT = some (CFloat.tenths (refTenths bmp UT)))
    ∧ (refX1 bmp UT + bmp.md ≠ 0 → fitsSigned 32 ((UT - bmp.ac6) * bmp.ac5) →
        bmp180_temperature_compensate 32 bmp UT = some (CFloat.tenths (refTenths bmp UT))) := by
  have hp := product_fits_33 33 bmp UT (le_refl 33) hUT h5 h6
  have hp1 := hp.2.1
  have hp2 := hp.1
  have hx : refX1 bmp UT = ((UT - bmp.ac6) * bmp.ac5) / 32768 := by
    simp only [refX1]; norm_num
  have hb := tdiv_bounds (bmp.mc * 2 ^ 11) (refX1 bmp UT + bmp.md)
  have habs : |bmp.mc * 2 ^ 11| ≤ 67108864 := by
    rw [abs_le]; norm_num; omega
  have hX2 : -67108864 ≤ refX2 bmp UT ∧ refX2 bmp UT ≤ 67108864 := by
    simp only [refX2]; omega
  have hall : ∀ lb : Nat, 33 ≤ lb → refX1 bmp UT + bmp.md ≠ 0 →
      bmp180_temperature_compensate lb bmp UT
        = some (CFloat.tenths (refTenths bmp UT)) := by
    intro lb hlb hd
    exact ((temperature_exact lb bmp UT (by omega) hmc hmd
      (product_fits_33 lb bmp UT hlb hUT h5 h6).2.2).2.2 hd).2.1
  refine ⟨hp.2.2, hp2, hp1, ?_, ?_, ?_, ?_, hall, hall 64 (by decide), ?_⟩
  · simp only [fitsSigned]; norm_num; omega
  · rw [hx]; simp only [fitsSigned]; norm_num; omega
  · simp only [refB5]; rw [hx]; simp only [fitsSigned]; norm_num; omega
  · simp only [refB5]; rw [hx]; simp only [fitsSigned]; norm_num; omega
  · intro hd hP
    exact ((temperature_exact 32 bmp UT (le_refl 32) hmc hmd hP).2.2 hd).2.1

theorem temperature_width_witness :
    fitsSigned 33 ((65535 - wideBmp.ac6) * wideBmp.ac5)
    ∧ fitsSigned 32 (refB5 wideBmp 65535)
    ∧ bmp180_temperature_compensate 33 wideBmp 65535
        = some (CFloat.tenths (refTenths wideBmp 65535))
    ∧ bmp180_temperature_compensate 64 wideBmp 65535
        = some (CFloat.tenths (refTenths wideBmp 65535)) :=
  ⟨(temperature_width wideBmp 65535 (by decide) (by decide) (by decide) (by decide)
      (by decide)).1,
    (temperature_width wideBmp 65535 (by decide) (by decide) (by decide) (by decide)
      (by decide)).2.2.2.2.2.1,
    (temperature_width wideBmp 65535 (by decide) (by decide) (by decide) (by decide)
      (by decide)).2.2.2.2.2.2.2.1 33 (le_refl 33) (by decide),
    (temperature_width wideBmp 65535 (by decide) (by decide) (by decide) (by decide)
      (by decide)).2.2.2.2.2.2.2.2.1 (by decide)⟩

/-- C17 fails as stated at `UT = 65535`, `AC5 = 65535`, `AC6 = 0`, `MC = -8711`,
`MD = 2868`, all within their ranges: the product `(UT - AC6) * AC5 = 4294836225`
exceeds `2^31 - 1`, and the 32-bit evaluation (-390 tenths) differs from exact integer
arithmetic (8183 tenths). -/
theorem product_exceeds_32_bits :
    (0 ≤ (65535 : Int) ∧ (65535 : Int) ≤ 65535)
    ∧ (0 ≤ wideBmp.ac5 ∧ wideBmp.ac5 ≤ 65535) ∧ (0 ≤ wideBmp.ac6 ∧ wideBmp.ac6 ≤ 65535)
    ∧ (-32768 ≤ wideBmp.mc ∧ wideBmp.mc ≤ 32767) ∧ (-32768 ≤ wideBmp.md ∧ wideBmp.md ≤ 32767)
    ∧ (65535 - wideBmp.ac6) * wideBmp.ac5 = 4294836225
    ∧ (2 : Int) ^ 31 - 1 < (65535 - wideBmp.ac6) * wideBmp.ac5
    ∧ bmp180_temperature_compensate 32 wideBmp 65535 = some (CFloat.tenths (-390))
    ∧ refTenths wideBmp 65535 = 8183 := by
  decide

/-! ## C18: monotonicity of the temperature in the raw reading -/

/-- For a dividend that is not positive, the quotient truncated toward zero does not
decrease when a positive divisor grows. -/
theorem tdiv_mono_divisor (n d d' : Int) (hn : n ≤ 0) (hd : 0 < d) (hdd : d ≤ d') :
    Int.tdiv n d ≤ Int.tdiv n d' := by
  obtain ⟨m, rfl⟩ : ∃ m : Int, n = -m := ⟨-n, by omega⟩
  have hm : 0 ≤ m := by omega
  have hd' : 0 < d' := by omega
  rw [Int.neg_tdiv, Int.neg_tdiv, Int.tdiv_eq_ediv hm (le_of_lt hd),
    Int.tdiv_eq_ediv hm (le_of_lt hd')]
  have hq : 0 ≤ m / d' := Int.ediv_nonneg hm (le_of_lt hd')
  have h1 : m / d' * d' ≤ m := Int.ediv_mul_le m (by omega)
  have h2 : m / d' * d ≤ m / d' * d' := by nlinarith
  have h3 : m / d' ≤ m / d := Int.le_ediv_of_mul_le hd (le_trans h2 h1)
  omega

/-- The reference `B5` and the reference tenths do not decrease with the raw reading,
for `AC5 ≥ 0`, `MC ≤ 0` and a positive divisor at the smaller reading. -/
theorem refB5_mono (bmp : bmp180_t) (UT UT' : Int) (h5 : 0 ≤ bmp.ac5) (hmc : bmp.mc ≤ 0)
    (hle : UT ≤ UT') (hd : 0 < refX1 bmp UT + bmp.md) :
    refX1 bmp UT ≤ refX1 bmp UT'
    ∧ refB5 bmp UT ≤ refB5 bmp UT'
    ∧ refTenths bmp UT ≤ refTenths bmp UT' := by
  have hP : (UT - bmp.ac6) * bmp.ac5 ≤ (UT' - bmp.ac6) * bmp.ac5 := by nlinarith
  have hx : refX1 bmp UT ≤ refX1 bmp UT' := by
    simp only [refX1]
    exact Int.ediv_le_ediv (by norm_num) hP
  have hN : bmp.mc * 2 ^ 11 ≤ 0 := by
    have : (0 : Int) < 2 ^ 11 := by norm_num
    nlinarith
  have h2 : refX2 bmp UT ≤ refX2 bmp UT' := by
    simp only [refX2]
    exact tdiv_mono_divisor _ _ _ hN hd (by omega)
  have hB : refB5 bmp UT ≤ refB5 bmp UT' := by
    simp only [refB5]; omega
  refine ⟨hx, hB, ?_⟩
  simp only [refTenths]
  omega

/-- C18 (as amended). For a calibration with `AC5 ≥ 0`, `MC` in `[-32768, 0]` and `MD`
a 16-bit value, and raw temperatures `UT1 ≤ UT2` whose products `(UT - AC6) * AC5` are
representable in the `long` of the host (at least 32 bits; always so for a 64-bit
`long` and 16-bit `UT`, `AC5`, `AC6`), with `X1(UT1) + MD > 0`: the `B5` term computed
for `UT1` is at most the one computed for `UT2`, and so are the tenths
`(B5 + 8) >> 4`. -/
theorem temperature_monotone (lb : Nat) (bmp : bmp180_t) (UT1 UT2 : Int) (hlb : 32 ≤ lb)
    (h5 : 0 ≤ bmp.ac5) (hmc : -32768 ≤ bmp.mc ∧ bmp.mc ≤ 0)
    (hmd : -32768 ≤ bmp.md ∧ bmp.md ≤ 32767) (hle : UT1 ≤ UT2)
    (hP : (fitsSigned lb ((UT1 - bmp.ac6) * bmp.ac5)
          ∧ fitsSigned lb ((UT2 - bmp.ac6) * bmp.ac5))
      ∨ (64 ≤ lb ∧ 0 ≤ UT1 ∧ UT2 ≤ 65535 ∧ bmp.ac5 ≤ 65535 ∧ 0 ≤ bmp.ac6
          ∧ bmp.ac6 ≤ 65535))
    (hd : 0 < bmp180_X1_md lb bmp UT1) :
    bmp180_B5 lb bmp UT1 = some (refB5 bmp UT1)
    ∧ bmp180_B5 lb bmp UT2 = some (refB5 bmp UT2)
    ∧ refB5 bmp UT1 ≤ refB5 bmp UT2
    ∧ bmp180_temperature_compensate lb bmp UT1 = some (CFloat.tenths (refTenths bmp UT1))
    ∧ bmp180_temperature_compensate lb bmp UT2 = some (CFloat.tenths (refTenths bmp UT2))
    ∧ refTenths bmp UT1 ≤ refTenths bmp UT2 := by
  have hf : fitsSigned lb ((UT1 - bmp.ac6) * bmp.ac5)
      ∧ fitsSigned lb ((UT2 - bmp.ac6) * bmp.ac5) := by
    rcases hP with h | ⟨h64, h1, h2, h5b, h6a, h6b⟩
    · exact h
    · exact ⟨product_fits_64 lb bmp UT1 h64 ⟨h1, by omega⟩ ⟨h5, h5b⟩ ⟨h6a, h6b⟩,
        product_fits_64 lb bmp UT2 h64 ⟨by omega, h2⟩ ⟨h5, h5b⟩ ⟨h6a, h6b⟩⟩
  have hmc' : -32768 ≤ bmp.mc ∧ bmp.mc ≤ 32767 := ⟨hmc.1, by omega⟩
  have e1 := temperature_exact lb bmp UT1 hlb hmc' hmd hf.1
  have e2 := temperature_exact lb bmp UT2 hlb hmc' hmd hf.2
  rw [e1.2.1] at hd
  have hm := refB5_mono bmp UT1 UT2 h5 hmc.2 hle hd
  have hd2 : refX1 bmp UT2 + bmp.md ≠ 0 := by omega
  have r1 := e1.2.2 (by omega)
  have r2 := e2.2.2 hd2
  exact ⟨r1.1, r2.1, hm.2.1, r1.2.1, r2.2.1, hm.2.2⟩

theorem temperature_monotone_witness :
    bmp180_B5 32 datasheetBmp 27898 = some (refB5 datasheetBmp 27898)
    ∧ bmp180_B5 32 datasheetBmp 30000 = some (refB5 datasheetBmp 30000)
    ∧ refB5 datasheetBmp 27898 ≤ refB5 datasheetBmp 30000 :=
  ⟨(temperature_monotone 32 datasheetBmp 27898 30000 (by decide) (by decide) (by decide)
      (by decide) (by decide) (Or.inl (by decide)) (by decide)).1,
    (temperature_monotone 32 datasheetBmp 27898 30000 (by decide) (by decide) (by decide)
      (by decide) (by decide) (Or.inl (by decide)) (by decide)).2.1,
    (temperature_monotone 32 datasheetBmp 27898 30000 (by decide) (by decide) (by decide)
      (by decide) (by decide) (Or.inl (by decide)) (by decide)).2.2.1⟩

/-- C18 fails as stated on a host whose `long` has 32 bits, for the calibration
`AC5 = 65535 ≥ 0`, `AC6 = 0`, `MC = -8711 ≤ 0`, `MD = 2868` and the readings
`UT1 = 0 ≤ UT2 = 65535`: `X1(UT1) + MD = 2868 > 0`, yet `B5` is -6220 for `UT1` and
-6233 for `UT2`, and the tenths are -389 and -390. -/
theorem temperature_32_bit_not_monotone :
    0 ≤ wideBmp.ac5 ∧ wideBmp.mc ≤ 0 ∧ (0 : Int) ≤ 65535
    ∧ bmp180_X1_md 32 wideBmp 0 = 2868
    ∧ bmp180_B5 32 wideBmp 0 = some (-6220)
    ∧ bmp180_B5 32 wideBmp 65535 = some (-6233)
    ∧ bmp180_temperature_compensate 32 wideBmp 0 = some (CFloat.tenths (-389))
    ∧ bmp180_temperature_compensate 32 wideBmp 65535 = some (CFloat.tenths (-390)) := by
  decide

/-! ## C19: the range of the raw pressure -/

/-- C19. For an instance whose mode `oss` is in `{0,1,2,3}` and a successful command
write, `bmp180_read_raw_pressure` returns a value `UP` with `0 ≤ UP < 2^(16 + oss)`,
whatever the three byte reads answer (each answer is masked with `0xFF`, a negative
error code included) and whatever the argument; so `UP` is never the sentinel -1. -/
theorem raw_pressure_range (host : Host) (tr : List Op) (bmp : bmp180_t) (arg : Int)
    (m : Nat) (hm : m ≤ 3) (hoss : bmp.oss = m) (hw : host tr (preWrite bmp arg) = 0) :
    ∃ UP : Int, (bmp180_read_raw_pressure host tr bmp arg).ret = some UP
      ∧ 0 ≤ UP ∧ UP < 2 ^ (16 + m) ∧ UP ≠ -1 := by
  have hn : ¬ host tr (preWrite bmp arg) < 0 := by rw [hw]; decide
  have hr := raw_pressure_ret_of_nonneg host tr bmp arg hn
  rw [hoss] at hr
  generalize host _ (Op.i2c_smbus_read_byte_data bmp.file 0xF6) = a at hr
  generalize host _ (Op.i2c_smbus_read_byte_data bmp.file 0xF7) = b at hr
  generalize host _ (Op.i2c_smbus_read_byte_data bmp.file 0xF8) = c at hr
  have hc : (0 : Int) ≤ 8 - (m : Int) ∧ 8 - (m : Int) < ((32 : Nat) : Int) := by
    constructor <;> omega
  have ht : (8 - (m : Int)).toNat = 8 - m := by omega
  simp only [shr, if_pos hc, ht, sar] at hr
  refine ⟨_, hr, ?_⟩
  interval_cases m <;> norm_num <;> omega

theorem raw_pressure_range_witness :
    ∃ UP : Int, (bmp180_read_raw_pressure byteReadFailHost []
        (bmp180_set_oss datasheetBmp 3) 3).ret = some UP
      ∧ 0 ≤ UP ∧ UP < 2 ^ (16 + 3) ∧ UP ≠ -1 :=
  raw_pressure_range byteReadFailHost [] (bmp180_set_oss datasheetBmp 3) 3 3 (by decide)
    rfl rfl

/-! ## C20: the byte-order correction -/

/-- The stored calibration value and the raw temperature are the byte-order correction
of the masked answer of the word read. -/
theorem byteSwap_in_code (host : Host) (tr : List Op) (bmp : bmp180_t) (reg : Int)
    (h : ¬ host tr (tmpWrite bmp) < 0) :
    (bmp180_read_eprom_reg host tr bmp reg 0).2
        = byteSwap (bitfield (host tr (Op.i2c_smbus_read_word_data bmp.file reg)) 0 16)
    ∧ (bmp180_read_raw_temperature host tr bmp).val
        = byteSwap (bitfield (host (tr ++ [tmpWrite bmp,
            Op.usleep BMP180_TMP_READ_WAIT_US])
            (Op.i2c_smbus_read_word_data bmp.file BMP180_REG_TMP)) 0 16) := by
  constructor
  · simp only [bmp180_read_eprom_reg, byteSwap, ne_eq, not_true_eq_false, false_and,
      if_false]
  · unfold tmpWrite at h
    simp only [bmp180_read_raw_temperature, if_neg h, byteSwap, tmpWrite, List.append_assoc,
      List.singleton_append, List.cons_append, List.nil_append]

/-- C20. The byte-order correction `swap(w) = ((w << 8) & 0xFF00) + (w >> 8)` maps
every `w` in `[0, 65535]` to a value in `[0, 65535]`, equals
`256 * (w mod 256) + (w div 256)`, and is an involution: `swap(swap(w)) = w`. -/
theorem byteSwap_involution (w : Int) (h0 : 0 ≤ w) (h1 : w ≤ 65535) :
    0 ≤ byteSwap w ∧ byteSwap w ≤ 65535
    ∧ byteSwap w = 256 * (w % 256) + w / 256
    ∧ byteSwap (byteSwap w) = w := by
  have key : ∀ x : Int, 0 ≤ x → x ≤ 65535 → byteSwap x = 256 * (x % 256) + x / 256 := by
    intro x hx0 hx1
    simp only [byteSwap, bitfield, wrapSigned, sar]
    norm_num
    omega
  have e := key w h0 h1
  have r0 : 0 ≤ byteSwap w := by rw [e]; omega
  have r1 : byteSwap w ≤ 65535 := by rw [e]; omega
  refine ⟨r0, r1, e, ?_⟩
  rw [key (byteSwap w) r0 r1, e]
  omega

theorem byteSwap_involution_witness :
    byteSwap 0x0180 = 0x8001 ∧ byteSwap (byteSwap 0x0180) = 0x0180 :=
  ⟨by decide,
    (byteSwap_involution 0x0180 (by decide) (by decide)).2.2.2⟩

end BMP180
